import Mathlib

/-!
Verification development for the PathwellConnect enforcement/audit fabric.

The Rust services are shallowly embedded as executable Lean definitions:
  * JSON documents are the inductive `Json`; `Json.render` mirrors
    `serde_json::to_string` (compact encoding, struct fields in declaration
    order).  The dynamic values appearing in the claims only ever carry
    integral numbers, so `Json.render` is exact on everything we hash or
    compare.
  * SHA-256 (`sha2::Sha256` + `hex::encode`) is implemented concretely over
    byte lists (`SHA256.sha256hex`).
  * Machine floats (`f64`) and SQL decimals are modelled as `Rat`: the claims
    only concern comparisons, clamping and exact small sums, where rational
    arithmetic agrees with the double-precision computations performed on the
    in-range trust values.
  * UUIDs, `DateTime<Utc>` values and row ids are modelled as `String`
    (their serialized form); database clocks (`NOW()`, `Utc::now()`) are
    abstract `Nat` instants supplied by the caller.
  * Fallible external calls (HTTP, certificate authority) are modelled with
    `CallResult`; database effects are materialised as explicit state plus an
    ordered operation log.
-/

/-- JSON values as produced by `serde_json`.  Objects keep their fields in
emission order; numbers are rationals (every number that the verified code
paths serialize is integral). -/
inductive Json where
  | null
  | bool (b : Bool)
  | num (q : Rat)
  | str (s : String)
  | arr (elems : List Json)
  | obj (fields : List (String × Json))

namespace Json

/-- String escaping of `serde_json`: quote, backslash, and the ASCII control
characters (with the usual shorthands). -/
def escapeChar (c : Char) : String :=
  if c = '"' then "\\\""
  else if c = '\\' then "\\\\"
  else if c = '\n' then "\\n"
  else if c = '\r' then "\\r"
  else if c = '\t' then "\\t"
  else if c = Char.ofNat 8 then "\\b"
  else if c = Char.ofNat 12 then "\\f"
  else if c.toNat < 32 then
    let hexDigit : Nat → String := fun n =>
      String.singleton (("0123456789abcdef".toList).getD n '0')
    "\\u00" ++ hexDigit (c.toNat / 16) ++ hexDigit (c.toNat % 16)
  else String.singleton c

def renderString (s : String) : String :=
  "\"" ++ String.join (s.toList.map escapeChar) ++ "\""

/-- Number rendering.  All numbers rendered by the modelled code are integers
(`u64` durations, `u16` status codes). -/
def renderNum (q : Rat) : String :=
  if q.den = 1 then toString q.num else toString q

mutual

def render : Json → String
  | .null => "null"
  | .bool true => "true"
  | .bool false => "false"
  | .num q => renderNum q
  | .str s => renderString s
  | .arr elems => "[" ++ renderArr elems ++ "]"
  | .obj fields => "\x7b" ++ renderObj fields ++ "\x7d"

def renderArr : List Json → String
  | [] => ""
  | [x] => render x
  | x :: y :: rest => render x ++ "," ++ renderArr (y :: rest)

def renderObj : List (String × Json) → String
  | [] => ""
  | [(k, v)] => renderString k ++ ":" ++ render v
  | (k, v) :: f :: rest => renderString k ++ ":" ++ render v ++ "," ++ renderObj (f :: rest)

end

/-- `Value::get(key)` on an object (`serde_json` maps have unique keys; the
first binding wins). -/
def get? : Json → String → Option Json
  | .obj fields, key => (fields.find? (fun f => f.1 = key)).map (·.2)
  | _, _ => none

/-- `Value::as_bool`. -/
def asBool : Json → Option Bool
  | .bool b => some b
  | _ => none

/-- `Value::as_str`. -/
def asStr : Json → Option String
  | .str s => some s
  | _ => none

/-- `Value::as_f64` (defined on every JSON number). -/
def asNum : Json → Option Rat
  | .num q => some q
  | _ => none

/-- `Value::as_array`. -/
def asArr : Json → Option (List Json)
  | .arr elems => some elems
  | _ => none

/-- `serde` encoding of `Option<T>`: `None` is `null`. -/
def ofOption (f : α → Json) : Option α → Json
  | none => .null
  | some a => f a

end Json

namespace SHA256

/-- 2^32, the modulus of all word arithmetic. -/
def M32 : Nat := 4294967296

def rotr (n x : Nat) : Nat := ((x >>> n) ||| (x <<< (32 - n))) % M32

def bigSigma0 (x : Nat) : Nat := (rotr 2 x) ^^^ (rotr 13 x) ^^^ (rotr 22 x)
def bigSigma1 (x : Nat) : Nat := (rotr 6 x) ^^^ (rotr 11 x) ^^^ (rotr 25 x)
def smallSigma0 (x : Nat) : Nat := (rotr 7 x) ^^^ (rotr 18 x) ^^^ (x >>> 3)
def smallSigma1 (x : Nat) : Nat := (rotr 17 x) ^^^ (rotr 19 x) ^^^ (x >>> 10)
def ch (x y z : Nat) : Nat := (x &&& y) ^^^ ((x ^^^ 4294967295) &&& z)
def maj (x y z : Nat) : Nat := (x &&& y) ^^^ (x &&& z) ^^^ (y &&& z)

def K : List Nat :=
  [1116352408, 1899447441, 3049323471, 3921009573, 961987163, 1508970993,
   2453635748, 2870763221, 3624381080, 310598401, 607225278, 1426881987,
   1925078388, 2162078206, 2614888103, 3248222580, 3835390401, 4022224774,
   264347078, 604807628, 770255983, 1249150122, 1555081692, 1996064986,
   2554220882, 2821834349, 2952996808, 3210313671, 3336571891, 3584528711,
   113926993, 338241895, 666307205, 773529912, 1294757372, 1396182291,
   1695183700, 1986661051, 2177026350, 2456956037, 2730485921, 2820302411,
   3259730800, 3345764771, 3516065817, 3600352804, 4094571909, 275423344,
   430227734, 506948616, 659060556, 883997877, 958139571, 1322822218,
   1537002063, 1747873779, 1955562222, 2024104815, 2227730452, 2361852424,
   2428436474, 2756734187, 3204031479, 3329325298]

def H0 : List Nat :=
  [1779033703, 3144134277, 1013904242, 2773480762,
   1359893119, 2600822924, 528734635, 1541459225]

/-- Merkle–Damgård padding: `0x80`, zeros to 56 mod 64, 64-bit big-endian
bit length. -/
def pad (msg : List Nat) : List Nat :=
  let len := msg.length
  let zeros := (120 - ((len + 1) % 64)) % 64
  let bitLen := len * 8
  msg ++ [0x80] ++ List.replicate zeros 0 ++
    [(bitLen >>> 56) % 256, (bitLen >>> 48) % 256, (bitLen >>> 40) % 256, (bitLen >>> 32) % 256,
     (bitLen >>> 24) % 256, (bitLen >>> 16) % 256, (bitLen >>> 8) % 256, bitLen % 256]

/-- Group bytes into big-endian 32-bit words. -/
def toWords : List Nat → List Nat
  | b0 :: b1 :: b2 :: b3 :: rest =>
      (b0 * 16777216 + b1 * 65536 + b2 * 256 + b3) :: toWords rest
  | _ => []

/-- Group words into 16-word blocks (fuel keeps the recursion structural;
`ws.length` steps always suffice since every step consumes a word). -/
def toBlocksAux : Nat → List Nat → List (List Nat)
  | 0, _ => []
  | _ + 1, [] => []
  | fuel + 1, w :: rest => ((w :: rest).take 16) :: toBlocksAux fuel ((w :: rest).drop 16)

def toBlocks (ws : List Nat) : List (List Nat) := toBlocksAux ws.length ws

/-- Extend a 16-word block to the 64-word message schedule. -/
def msgSchedule (block : List Nat) : List Nat :=
  (List.range 48).foldl
    (fun w _ =>
      w ++ [(smallSigma1 (w.getD (w.length - 2) 0) + w.getD (w.length - 7) 0 +
             smallSigma0 (w.getD (w.length - 15) 0) + w.getD (w.length - 16) 0) % M32])
    block

/-- One compression round. -/
def round (s : List Nat) (wk : Nat × Nat) : List Nat :=
  match s with
  | [a, b, c, d, e, f, g, h] =>
      let t1 := (h + bigSigma1 e + ch e f g + wk.1 + wk.2) % M32
      let t2 := (bigSigma0 a + maj a b c) % M32
      [(t1 + t2) % M32, a, b, c, (d + t1) % M32, e, f, g]
  | other => other

def compressBlock (h : List Nat) (block : List Nat) : List Nat :=
  let fin := ((msgSchedule block).zip K).foldl round h
  (h.zip fin).map (fun p => (p.1 + p.2) % M32)

def sha256Bytes (msg : List Nat) : List Nat :=
  let final := (toBlocks (toWords (pad msg))).foldl compressBlock H0
  final.flatMap (fun w => [(w >>> 24) % 256, (w >>> 16) % 256, (w >>> 8) % 256, w % 256])

def hexDigit (n : Nat) : Char := ("0123456789abcdef".toList).getD n '0'

def hexByte (b : Nat) : String := String.mk [hexDigit (b / 16), hexDigit (b % 16)]

/-- `hex::encode` of a byte list. -/
def hexEncode (bs : List Nat) : String := String.join (bs.map hexByte)

/-- UTF-8 bytes of a string (the byte list underlying `String.toUTF8`). -/
def strBytes (s : String) : List Nat :=
  (s.data.flatMap String.utf8EncodeChar).map (·.toNat)

/-- `hex::encode(Sha256::digest(s))`. -/
def sha256hex (s : String) : String := hexEncode (sha256Bytes (strBytes s))

/- Keep symbolic hashes opaque during elaboration; the kernel still unfolds
them when a proof evaluates a concrete hash. -/
attribute [irreducible] sha256hex

end SHA256

/-! ## Receipt Store (C4): `receipt.rs` -/

namespace ReceiptStore

/-- `EventType` (serde `snake_case`). -/
inductive EventType where
  | gateway_request
  | policy_evaluation
  | identity_validation
  | external_event
  | human_action
deriving DecidableEq

/-- `Default for EventType`. -/
instance : Inhabited EventType := ⟨.gateway_request⟩

def EventType.toJson : EventType → Json
  | .gateway_request => .str "gateway_request"
  | .policy_evaluation => .str "policy_evaluation"
  | .identity_validation => .str "identity_validation"
  | .external_event => .str "external_event"
  | .human_action => .str "human_action"

structure EventSource where
  system : String
  service : String
  version : String
deriving DecidableEq

def EventSource.toJson (s : EventSource) : Json :=
  .obj [("system", .str s.system), ("service", .str s.service), ("version", .str s.version)]

structure RequestInfo where
  method : String
  path : String
  headers : List (String × String)
  body_hash : Option String
deriving DecidableEq

def RequestInfo.toJson (r : RequestInfo) : Json :=
  .obj [("method", .str r.method), ("path", .str r.path),
        ("headers", .obj (r.headers.map (fun p => (p.1, Json.str p.2)))),
        ("body_hash", Json.ofOption .str r.body_hash)]

structure PolicyResult where
  allowed : Bool
  policy_version : String
  evaluation_time_ms : Nat
deriving DecidableEq

def PolicyResult.toJson (p : PolicyResult) : Json :=
  .obj [("allowed", .bool p.allowed), ("policy_version", .str p.policy_version),
        ("evaluation_time_ms", .num (p.evaluation_time_ms : Rat))]

structure IdentityResult where
  valid : Bool
  developer_id : String
  enterprise_id : Option String
deriving DecidableEq

def IdentityResult.toJson (i : IdentityResult) : Json :=
  .obj [("valid", .bool i.valid), ("developer_id", .str i.developer_id),
        ("enterprise_id", Json.ofOption .str i.enterprise_id)]

/-- `Receipt` (v1).  UUIDs and the RFC 3339 timestamp are carried in their
serialized string form. -/
structure Receipt where
  receipt_id : String
  trace_id : String
  correlation_id : Option String
  span_id : String
  parent_span_id : Option String
  timestamp : String
  agent_id : String
  event_type : EventType
  event_source : EventSource
  request : RequestInfo
  policy_result : PolicyResult
  identity_result : IdentityResult
  metadata : Option Json
  receipt_hash : String
  previous_receipt_hash : Option String

/-- The `serde_json::json!` document hashed by `Receipt::calculate_hash`:
every field except `receipt_hash` itself.

Modelled from the spec: the emission order of the fourteen top-level keys of
this `json!` map depends on `serde_json`'s `preserve_order` feature flag,
which is chosen in the crate manifest — a file that is not part of `src/`.
Per §6.3 of the specification the keys appear in insertion order, i.e. the
normative order below. -/
def Receipt.hashInput (r : Receipt) : Json :=
  .obj [("receipt_id", .str r.receipt_id),
        ("trace_id", .str r.trace_id),
        ("correlation_id", Json.ofOption .str r.correlation_id),
        ("span_id", .str r.span_id),
        ("parent_span_id", Json.ofOption .str r.parent_span_id),
        ("timestamp", .str r.timestamp),
        ("agent_id", .str r.agent_id),
        ("event_type", r.event_type.toJson),
        ("event_source", r.event_source.toJson),
        ("request", r.request.toJson),
        ("policy_result", r.policy_result.toJson),
        ("identity_result", r.identity_result.toJson),
        ("metadata", Json.ofOption id r.metadata),
        ("previous_receipt_hash", Json.ofOption .str r.previous_receipt_hash)]

/-- `Receipt::calculate_hash`. -/
def Receipt.calculate_hash (r : Receipt) : String :=
  SHA256.sha256hex r.hashInput.render

/-- `Receipt::new`.  The freshly generated `receipt_id` (`Uuid::new_v4`) and
captured `timestamp` (`Utc::now`) are passed in explicitly. -/
def Receipt.new (receipt_id timestamp : String)
    (trace_id : String) (correlation_id : Option String)
    (span_id : String) (parent_span_id : Option String)
    (agent_id : String) (event_type : EventType) (event_source : EventSource)
    (request : RequestInfo) (policy_result : PolicyResult)
    (identity_result : IdentityResult) (metadata : Option Json)
    (previous_receipt_hash : Option String) : Receipt :=
  let receipt : Receipt :=
    { receipt_id, trace_id, correlation_id, span_id, parent_span_id, timestamp,
      agent_id, event_type, event_source, request, policy_result,
      identity_result, metadata,
      receipt_hash := "",
      previous_receipt_hash }
  { receipt with receipt_hash := receipt.calculate_hash }

/-- `serde_json::to_string(&receipt)`: the full struct, fields in declaration
order (`receipt_hash` included). -/
def Receipt.toJson (r : Receipt) : Json :=
  .obj [("receipt_id", .str r.receipt_id),
        ("trace_id", .str r.trace_id),
        ("correlation_id", Json.ofOption .str r.correlation_id),
        ("span_id", .str r.span_id),
        ("parent_span_id", Json.ofOption .str r.parent_span_id),
        ("timestamp", .str r.timestamp),
        ("agent_id", .str r.agent_id),
        ("event_type", r.event_type.toJson),
        ("event_source", r.event_source.toJson),
        ("request", r.request.toJson),
        ("policy_result", r.policy_result.toJson),
        ("identity_result", r.identity_result.toJson),
        ("metadata", Json.ofOption id r.metadata),
        ("receipt_hash", .str r.receipt_hash),
        ("previous_receipt_hash", Json.ofOption .str r.previous_receipt_hash)]

end ReceiptStore

/-! ### V2 receipt types (`receipt.rs`, Phase 1) -/

namespace ReceiptStore

structure TrustDimensions where
  behavior : Rat
  validation : Rat
  provenance : Rat
  alignment : Rat
  reputation : Rat

def TrustDimensions.toJson (d : TrustDimensions) : Json :=
  .obj [("behavior", .num d.behavior), ("validation", .num d.validation),
        ("provenance", .num d.provenance), ("alignment", .num d.alignment),
        ("reputation", .num d.reputation)]

/-- `TrustContext` as stored on receipts. -/
structure TrustContext where
  composite_score : Rat
  dimensions : TrustDimensions
  threshold_applied : Rat
  trust_action : Option String

def TrustContext.toJson (t : TrustContext) : Json :=
  .obj [("composite_score", .num t.composite_score),
        ("dimensions", t.dimensions.toJson),
        ("threshold_applied", .num t.threshold_applied),
        ("trust_action", Json.ofOption .str t.trust_action)]

structure AttributionContext where
  creator_id : Option String
  publisher_id : Option String
  audit_visibility_scope : Option String

def AttributionContext.toJson (a : AttributionContext) : Json :=
  .obj [("creator_id", Json.ofOption .str a.creator_id),
        ("publisher_id", Json.ofOption .str a.publisher_id),
        ("audit_visibility_scope", Json.ofOption .str a.audit_visibility_scope)]

structure PolicyWarning where
  code : String
  message : String
  severity : String
deriving DecidableEq

def PolicyWarning.toJson (w : PolicyWarning) : Json :=
  .obj [("code", .str w.code), ("message", .str w.message), ("severity", .str w.severity)]

structure TrustEvaluationResult where
  trust_score_checked : Bool
  trust_score : Option Rat
  threshold : Rat
  passed : Bool
  action_taken : Option String

def TrustEvaluationResult.toJson (t : TrustEvaluationResult) : Json :=
  .obj [("trust_score_checked", .bool t.trust_score_checked),
        ("trust_score", Json.ofOption .num t.trust_score),
        ("threshold", .num t.threshold),
        ("passed", .bool t.passed),
        ("action_taken", Json.ofOption .str t.action_taken)]

structure PolicyResultV2 where
  allowed : Bool
  policy_version : String
  evaluation_time_ms : Nat
  trust_evaluation : Option TrustEvaluationResult
  tenant_policy_applied : Option String
  warnings : List PolicyWarning

def PolicyResultV2.toJson (p : PolicyResultV2) : Json :=
  .obj [("allowed", .bool p.allowed),
        ("policy_version", .str p.policy_version),
        ("evaluation_time_ms", .num (p.evaluation_time_ms : Rat)),
        ("trust_evaluation", Json.ofOption TrustEvaluationResult.toJson p.trust_evaluation),
        ("tenant_policy_applied", Json.ofOption .str p.tenant_policy_applied),
        ("warnings", .arr (p.warnings.map PolicyWarning.toJson))]

structure IdentityResultV2 where
  valid : Bool
  developer_id : String
  enterprise_id : Option String
  tenant_id : Option String
  tenant_hierarchy_path : Option (List String)
  trust_score : Option TrustContext
  attribution : Option AttributionContext

def IdentityResultV2.toJson (i : IdentityResultV2) : Json :=
  .obj [("valid", .bool i.valid),
        ("developer_id", .str i.developer_id),
        ("enterprise_id", Json.ofOption .str i.enterprise_id),
        ("tenant_id", Json.ofOption .str i.tenant_id),
        ("tenant_hierarchy_path",
          Json.ofOption (fun p => .arr (p.map Json.str)) i.tenant_hierarchy_path),
        ("trust_score", Json.ofOption TrustContext.toJson i.trust_score),
        ("attribution", Json.ofOption AttributionContext.toJson i.attribution)]

structure ReceiptV2 where
  receipt_id : String
  trace_id : String
  correlation_id : Option String
  span_id : String
  parent_span_id : Option String
  timestamp : String
  agent_id : String
  event_type : EventType
  event_source : EventSource
  request : RequestInfo
  policy_result : PolicyResultV2
  identity_result : IdentityResultV2
  metadata : Option Json
  receipt_hash : String
  previous_receipt_hash : Option String
  tenant_id : Option String
  trust_snapshot : Option TrustContext
  attribution_snapshot : Option AttributionContext

/-- The `json!` document hashed by `ReceiptV2::calculate_hash`: the v1 keys
followed by `tenant_id, trust_snapshot, attribution_snapshot` (key order as
for `Receipt.hashInput`, see the note there). -/
def ReceiptV2.hashInput (r : ReceiptV2) : Json :=
  .obj [("receipt_id", .str r.receipt_id),
        ("trace_id", .str r.trace_id),
        ("correlation_id", Json.ofOption .str r.correlation_id),
        ("span_id", .str r.span_id),
        ("parent_span_id", Json.ofOption .str r.parent_span_id),
        ("timestamp", .str r.timestamp),
        ("agent_id", .str r.agent_id),
        ("event_type", r.event_type.toJson),
        ("event_source", r.event_source.toJson),
        ("request", r.request.toJson),
        ("policy_result", r.policy_result.toJson),
        ("identity_result", r.identity_result.toJson),
        ("metadata", Json.ofOption id r.metadata),
        ("previous_receipt_hash", Json.ofOption .str r.previous_receipt_hash),
        ("tenant_id", Json.ofOption .str r.tenant_id),
        ("trust_snapshot", Json.ofOption TrustContext.toJson r.trust_snapshot),
        ("attribution_snapshot", Json.ofOption AttributionContext.toJson r.attribution_snapshot)]

/-- `ReceiptV2::calculate_hash`. -/
def ReceiptV2.calculate_hash (r : ReceiptV2) : String :=
  SHA256.sha256hex r.hashInput.render

/-- `ReceiptV2::new` (fresh id and timestamp passed in; tenant, trust and
attribution snapshots are extracted from the identity result). -/
def ReceiptV2.new (receipt_id timestamp : String)
    (trace_id : String) (correlation_id : Option String)
    (span_id : String) (parent_span_id : Option String)
    (agent_id : String) (event_type : EventType) (event_source : EventSource)
    (request : RequestInfo) (policy_result : PolicyResultV2)
    (identity_result : IdentityResultV2) (metadata : Option Json)
    (previous_receipt_hash : Option String) : ReceiptV2 :=
  let tenant_id := identity_result.tenant_id
  let trust_snapshot := identity_result.trust_score
  let attribution_snapshot := identity_result.attribution
  let receipt : ReceiptV2 :=
    { receipt_id, trace_id, correlation_id, span_id, parent_span_id, timestamp,
      agent_id, event_type, event_source, request, policy_result,
      identity_result, metadata,
      receipt_hash := "",
      previous_receipt_hash, tenant_id, trust_snapshot, attribution_snapshot }
  { receipt with receipt_hash := receipt.calculate_hash }

/-- `serde_json::to_string(&receipt)` for a v2 receipt (struct declaration
order). -/
def ReceiptV2.toJson (r : ReceiptV2) : Json :=
  .obj [("receipt_id", .str r.receipt_id),
        ("trace_id", .str r.trace_id),
        ("correlation_id", Json.ofOption .str r.correlation_id),
        ("span_id", .str r.span_id),
        ("parent_span_id", Json.ofOption .str r.parent_span_id),
        ("timestamp", .str r.timestamp),
        ("agent_id", .str r.agent_id),
        ("event_type", r.event_type.toJson),
        ("event_source", r.event_source.toJson),
        ("request", r.request.toJson),
        ("policy_result", r.policy_result.toJson),
        ("identity_result", r.identity_result.toJson),
        ("metadata", Json.ofOption id r.metadata),
        ("receipt_hash", .str r.receipt_hash),
        ("previous_receipt_hash", Json.ofOption .str r.previous_receipt_hash),
        ("tenant_id", Json.ofOption .str r.tenant_id),
        ("trust_snapshot", Json.ofOption TrustContext.toJson r.trust_snapshot),
        ("attribution_snapshot", Json.ofOption AttributionContext.toJson r.attribution_snapshot)]

inductive TrustEventType where
  | score_checked
  | threshold_violation
  | trust_warning
  | score_updated
deriving DecidableEq

/-- `TrustEvent` rows appended by the v2 write path (`timestamp` is the
abstract `Utc::now()` instant). -/
structure TrustEvent where
  event_id : String
  trace_id : String
  agent_id : String
  event_type : TrustEventType
  timestamp : Nat
  previous_score : Option Rat
  new_score : Rat
  threshold : Rat
  passed : Bool
  action_taken : Option String
  details : Json

end ReceiptStore

/-! ### Write path: `db.rs` and `store.rs` -/

namespace ReceiptStore

/-- A row of the legacy `receipts` hash table
(`receipt_id, receipt_hash, timestamp`). -/
structure ChainRow where
  receipt_id : String
  receipt_hash : String
  timestamp : Nat
deriving DecidableEq

/-- `SELECT receipt_hash FROM receipts ORDER BY timestamp DESC LIMIT 1`: a
row of maximal timestamp (on equal timestamps the database may return either;
the model prefers the later-inserted row — ties never arise under the
single-writer clock). -/
def latestRow : List ChainRow → Option ChainRow
  | [] => none
  | r :: rest =>
      match latestRow rest with
      | none => some r
      | some best => if r.timestamp ≤ best.timestamp then some best else some r

/-- `db::get_latest_receipt_hash`. -/
def get_latest_receipt_hash (rows : List ChainRow) : Option String :=
  (latestRow rows).map (·.receipt_hash)

/-- `db::store_receipt_hash`: `INSERT ... VALUES ($1, $2, NOW()) ON CONFLICT
(receipt_id) DO NOTHING`. -/
def store_receipt_hash (rows : List ChainRow)
    (receipt_id receipt_hash : String) (now : Nat) : List ChainRow :=
  if rows.any (fun row => row.receipt_id = receipt_id) then rows
  else rows ++ [⟨receipt_id, receipt_hash, now⟩]

/-- Relational writes issued by the store, in issue order. -/
inductive DbWrite where
  | upsert_trace (r : Receipt)
  | store_receipt_event (r : Receipt)
  | insert_receipt_hash (receipt_id receipt_hash : String)
  | upsert_trace_v2 (r : ReceiptV2)
  | store_receipt_event_v2 (r : ReceiptV2)
  | store_trust_event (e : TrustEvent)
  | increment_trust_violations (trace_id : String)

/-- State of the relational store that the write path reads back
(the `receipts` hash-chain table). -/
structure DBState where
  receipts : List ChainRow

/-- Side effects of one `store_receipt` call: relational writes in issue
order, and the best-effort Kafka / S3 payloads. -/
structure StoreEffects where
  dbOps : List DbWrite
  kafka : List String
  s3 : List String

/-- Fresh values generated during one store call (`Uuid::new_v4` for
receipt/trace/span ids, `Utc::now().to_rfc3339()` for the receipt timestamp,
one more id for a possible trust event). -/
structure StoreGen where
  receipt_id : String
  trace_id : String
  span_id : String
  timestampText : String
  trust_event_id : String

/-- `ReceiptRequest` (v1 write payload). -/
structure ReceiptRequest where
  trace_id : Option String
  correlation_id : Option String
  span_id : Option String
  parent_span_id : Option String
  agent_id : String
  event_type : Option EventType
  event_source : Option EventSource
  request : RequestInfo
  policy_result : PolicyResult
  identity_result : IdentityResult
  metadata : Option Json

/-- `ReceiptStore::store_receipt`.  `now` is the database clock used for the
`NOW()` of the hash-table insert. -/
def store_receipt (db : Option DBState) (now : Nat) (gen : StoreGen)
    (request : ReceiptRequest) : Option DBState × StoreEffects × Receipt :=
  let previous_hash :=
    match db with
    | some pool => get_latest_receipt_hash pool.receipts
    | none => none
  let trace_id := request.trace_id.getD gen.trace_id
  let span_id := request.span_id.getD gen.span_id
  let event_type := request.event_type.getD default
  let event_source := request.event_source.getD ⟨"pathwell", "proxy-gateway", "1.0.0"⟩
  let receipt := Receipt.new gen.receipt_id gen.timestampText trace_id
      request.correlation_id span_id request.parent_span_id request.agent_id
      event_type event_source request.request request.policy_result
      request.identity_result request.metadata previous_hash
  let receipt_json := receipt.toJson.render
  match db with
  | some pool =>
      (some { pool with
                receipts := store_receipt_hash pool.receipts receipt.receipt_id
                  receipt.receipt_hash now },
       { dbOps := [.upsert_trace receipt, .store_receipt_event receipt,
                   .insert_receipt_hash receipt.receipt_id receipt.receipt_hash],
         kafka := [receipt_json], s3 := [receipt_json] },
       receipt)
  | none =>
      (none, { dbOps := [], kafka := [receipt_json], s3 := [receipt_json] }, receipt)

/-- `ReceiptRequestV2` (v2 write payload). -/
structure ReceiptRequestV2 where
  trace_id : Option String
  correlation_id : Option String
  span_id : Option String
  parent_span_id : Option String
  agent_id : String
  event_type : Option EventType
  event_source : Option EventSource
  request : RequestInfo
  policy_result : PolicyResultV2
  identity_result : IdentityResultV2
  metadata : Option Json

/-- `ReceiptStore::store_receipt_v2`. -/
def store_receipt_v2 (db : Option DBState) (now : Nat) (gen : StoreGen)
    (request : ReceiptRequestV2) : Option DBState × StoreEffects × ReceiptV2 :=
  let previous_hash :=
    match db with
    | some pool => get_latest_receipt_hash pool.receipts
    | none => none
  let trace_id := request.trace_id.getD gen.trace_id
  let span_id := request.span_id.getD gen.span_id
  let event_type := request.event_type.getD default
  let event_source := request.event_source.getD ⟨"pathwell", "proxy-gateway", "2.0.0"⟩
  let receipt := ReceiptV2.new gen.receipt_id gen.timestampText trace_id
      request.correlation_id span_id request.parent_span_id request.agent_id
      event_type event_source request.request request.policy_result
      request.identity_result request.metadata previous_hash
  let receipt_json := receipt.toJson.render
  match db with
  | some pool =>
      let trustOps :=
        match request.policy_result.trust_evaluation with
        | some trust_eval =>
            let trust_event : TrustEvent :=
              { event_id := gen.trust_event_id
                trace_id := trace_id
                agent_id := request.agent_id
                event_type :=
                  if !trust_eval.passed then .threshold_violation
                  else if request.policy_result.warnings.any
                      (fun w => w.code.startsWith "TRUST_") then .trust_warning
                  else .score_checked
                timestamp := now
                previous_score := none
                new_score := trust_eval.trust_score.getD (1/2 : Rat)
                threshold := trust_eval.threshold
                passed := trust_eval.passed
                action_taken := trust_eval.action_taken
                details := .obj
                  [("warnings", .arr (request.policy_result.warnings.map PolicyWarning.toJson)),
                   ("tenant_policy", Json.ofOption .str request.policy_result.tenant_policy_applied)] }
            [DbWrite.store_trust_event trust_event] ++
              (if !trust_eval.passed then [DbWrite.increment_trust_violations trace_id] else [])
        | none => []
      (some { pool with
                receipts := store_receipt_hash pool.receipts receipt.receipt_id
                  receipt.receipt_hash now },
       { dbOps := [.upsert_trace_v2 receipt, .store_receipt_event_v2 receipt,
                   .insert_receipt_hash receipt.receipt_id receipt.receipt_hash] ++ trustOps,
         kafka := [receipt_json], s3 := [receipt_json] },
       receipt)
  | none =>
      (none, { dbOps := [], kafka := [receipt_json], s3 := [receipt_json] }, receipt)

/-- One call of a single-writer workload. -/
structure StoreCall where
  gen : StoreGen
  request : ReceiptRequest

/-- Sequential single-writer execution of v1 stores; the database clock ticks
once per call, so row timestamps are strictly increasing. -/
def runStoresAux : Option DBState → Nat → List StoreCall → List Receipt × Option DBState
  | db, _, [] => ([], db)
  | db, now, call :: rest =>
      let step := store_receipt db now call.gen call.request
      let tail := runStoresAux step.1 (now + 1) rest
      (step.2.2 :: tail.1, tail.2)

/-- A single-writer workload against an initially empty relational store. -/
def runStores (calls : List StoreCall) : List Receipt × Option DBState :=
  runStoresAux (some ⟨[]⟩) 0 calls

/-- The `match store.db_pool() { None => 503 "database_unavailable" }`
prologue shared by every read-side handler in `api.rs` (`list_traces`,
`get_trace`, `get_trace_timeline`, `get_trace_decisions`,
`lookup_by_correlation`, `get_trace_trust_events`). -/
def db_pool_or_503 (db : Option DBState) : Except (Nat × String) DBState :=
  match db with
  | none => .error (503, "database_unavailable")
  | some pool => .ok pool

/-- `StoreReceiptResponse` returned by the `POST /v1/receipts` handler. -/
structure StoreReceiptResponse where
  receipt_id : String
  receipt_hash : String
  trace_id : String
  stored : Bool

/-- `api::store_receipt`: wraps `ReceiptStore::store_receipt` and reports
`stored: true` on success. -/
def api_store_receipt (db : Option DBState) (now : Nat) (gen : StoreGen)
    (request : ReceiptRequest) : Option DBState × StoreEffects × StoreReceiptResponse :=
  let step := store_receipt db now gen request
  (step.1, step.2.1,
   ⟨step.2.2.receipt_id, step.2.2.receipt_hash, step.2.2.trace_id, true⟩)

end ReceiptStore

/-- Result of a fallible outbound call (`anyhow::Result<T>` /
`Result<T, E>` with a textual error). -/
inductive CallResult (α : Type) where
  | ok (value : α)
  | err (message : String)
deriving DecidableEq

/-! ## Proxy Gateway (C5): `interceptor.rs`, `main.rs` -/

namespace Gateway

def AGENT_ID_HEADER : String := "x-pathwell-agent-id"
def CORRELATION_ID_HEADER : String := "x-correlation-id"
def TRACE_ID_HEADER : String := "x-pathwell-trace-id"

/-- Modelled from the spec: the gateway build version (`CARGO_PKG_VERSION`)
comes from the crate manifest, which is not part of `src/`; its value is
immaterial to every claim. -/
def CARGO_PKG_VERSION : String := "0.1.0"

def NIL_UUID : String := "00000000-0000-0000-0000-000000000000"

/-- `identity_client::ValidateAgentResponse`. -/
structure ValidateAgentResponse where
  valid : Bool
  agent_id : String
  developer_id : String
  enterprise_id : Option String
  revoked : Bool
deriving DecidableEq

/-- `policy_client::PolicyResponse`. -/
structure PolicyResponse where
  allowed : Bool
  reason : String
  evaluation_time_ms : Nat
deriving DecidableEq

/-- The reply of the upstream backend. -/
structure UpstreamResponse where
  status : Nat
  headers : List (String × String)
  body : String
deriving DecidableEq

/-- The replies the three collaborators would give for this request. -/
structure Env where
  identity : CallResult ValidateAgentResponse
  policy : CallResult PolicyResponse
  upstream : CallResult UpstreamResponse
deriving DecidableEq

/-- One inbound request plus the nondeterministic inputs of the call
(fresh UUIDs, measured wall time). -/
structure Inbound where
  method : String
  path : String
  headers : List (String × String)
  body : String
  fresh_trace_id : String
  fresh_span_id : String
  elapsed_ms : Nat
deriving DecidableEq

structure HttpResponse where
  status : Nat
  headers : List (String × String)
  body : String

/-- `receipt_client::ReceiptRequest` (the gateway-side payload: trace and
span ids are always present). -/
structure ReceiptRequest where
  trace_id : String
  correlation_id : Option String
  span_id : String
  parent_span_id : Option String
  agent_id : String
  event_type : ReceiptStore.EventType
  event_source : ReceiptStore.EventSource
  request : ReceiptStore.RequestInfo
  policy_result : ReceiptStore.PolicyResult
  identity_result : ReceiptStore.IdentityResult
  metadata : Option Json

/-- What one gateway call produces: the caller-visible response, whether the
upstream send was issued, and the receipts posted to the Receipt Store. -/
structure Outcome where
  response : HttpResponse
  forwarded : Bool
  receipts : List ReceiptRequest

/-- `HeaderMap::get` (header names are normalized to lower case on the
wire). -/
def getHeader (headers : List (String × String)) (name : String) : Option String :=
  (headers.find? (fun h => h.1 = name)).map (·.2)

def isHexDigit (c : Char) : Bool :=
  (48 ≤ c.toNat && c.toNat ≤ 57) || (97 ≤ c.toNat && c.toNat ≤ 102) ||
  (65 ≤ c.toNat && c.toNat ≤ 70)

/-- Canonical hyphenated acceptance of `uuid::Uuid::parse_str` (the crate
also admits some alternate encodings; no claim exercises them). -/
def isUuid (s : String) : Bool :=
  s.toList.length = 36 &&
  (List.range 36).all (fun i =>
    if i = 8 || i = 13 || i = 18 || i = 23 then s.toList.getD i ' ' = '-'
    else isHexDigit (s.toList.getD i ' '))

def parseUuid (s : String) : Option String := if isUuid s then some s else none

structure TraceContext where
  trace_id : String
  correlation_id : Option String
  span_id : String

/-- `Interceptor::extract_trace_context` (the source also retries the
lookup with the lower-cased header name, which is the same constant). -/
def extract_trace_context (headers : List (String × String))
    (fresh_trace_id fresh_span_id : String) : TraceContext :=
  { trace_id := ((getHeader headers TRACE_ID_HEADER).bind parseUuid).getD fresh_trace_id
    correlation_id := getHeader headers CORRELATION_ID_HEADER
    span_id := fresh_span_id }

/-- `Interceptor::create_error_response`: denial receipt (allowed = false,
identity nil, metadata `{error_reason, status_code}`) plus the JSON error
body `{error: "request_denied", reason, status, trace_id}`. -/
def create_error_response (status : Nat) (reason : String) (agent_id : String)
    (trace_ctx : TraceContext) (method path : String)
    (headers : List (String × String)) (body_hash : Option String)
    (elapsed_ms : Nat) : Outcome :=
  let receipt : ReceiptRequest :=
    { trace_id := trace_ctx.trace_id
      correlation_id := trace_ctx.correlation_id
      span_id := trace_ctx.span_id
      parent_span_id := none
      agent_id := agent_id
      event_type := .gateway_request
      event_source := ⟨"pathwell", "proxy-gateway", CARGO_PKG_VERSION⟩
      request := ⟨method, path, headers, body_hash⟩
      policy_result := ⟨false, "v1", elapsed_ms⟩
      identity_result := ⟨false, NIL_UUID, none⟩
      metadata := some (.obj [("error_reason", .str reason),
                              ("status_code", .num (status : Rat))]) }
  { response :=
      { status := status
        headers := [("content-type", "application/json"),
                    (TRACE_ID_HEADER, trace_ctx.trace_id)]
        body := (Json.obj [("error", .str "request_denied"), ("reason", .str reason),
                           ("status", .num (status : Rat)),
                           ("trace_id", .str trace_ctx.trace_id)]).render }
    forwarded := false
    receipts := [receipt] }

/-- `Interceptor::intercept`.  An `err` result is an `anyhow` error escaping
the interceptor (only the missing agent-id header does this). -/
def intercept (env : Env) (inp : Inbound) : CallResult Outcome :=
  match getHeader inp.headers AGENT_ID_HEADER with
  | none => .err ("Missing " ++ AGENT_ID_HEADER ++ " header")
  | some agent_id =>
    let body_hash := some (SHA256.sha256hex inp.body)
    let method := inp.method
    let path := inp.path
    let headers := inp.headers
    let trace_ctx := extract_trace_context headers inp.fresh_trace_id inp.fresh_span_id
    match env.identity with
    | .err e =>
        .ok (create_error_response 403 ("Identity validation failed: " ++ e)
          agent_id trace_ctx method path headers body_hash inp.elapsed_ms)
    | .ok identity_result =>
      if !identity_result.valid || identity_result.revoked then
        .ok (create_error_response 403 "Agent identity invalid or revoked"
          agent_id trace_ctx method path headers body_hash inp.elapsed_ms)
      else
        match env.policy with
        | .err e =>
            .ok (create_error_response 500 ("Policy evaluation failed: " ++ e)
              agent_id trace_ctx method path headers body_hash inp.elapsed_ms)
        | .ok policy_result =>
          if !policy_result.allowed then
            .ok (create_error_response 403 policy_result.reason
              agent_id trace_ctx method path headers body_hash inp.elapsed_ms)
          else if !(method = "GET" || method = "POST" || method = "PUT" ||
                    method = "PATCH" || method = "DELETE") then
            .ok (create_error_response 405 "Unsupported HTTP method"
              agent_id trace_ctx method path headers body_hash inp.elapsed_ms)
          else
            match env.upstream with
            | .err e =>
                .ok (create_error_response 502 ("Failed to forward request: " ++ e)
                  agent_id trace_ctx method path headers body_hash inp.elapsed_ms)
            | .ok response =>
                let status :=
                  if 100 ≤ response.status && response.status ≤ 999
                  then response.status else 500
                let receipt : ReceiptRequest :=
                  { trace_id := trace_ctx.trace_id
                    correlation_id := trace_ctx.correlation_id
                    span_id := trace_ctx.span_id
                    parent_span_id := none
                    agent_id := agent_id
                    event_type := .gateway_request
                    event_source := ⟨"pathwell", "proxy-gateway", CARGO_PKG_VERSION⟩
                    request := ⟨method, path, headers, body_hash⟩
                    policy_result := ⟨policy_result.allowed, "v1",
                                      policy_result.evaluation_time_ms⟩
                    identity_result := ⟨identity_result.valid,
                                        identity_result.developer_id,
                                        identity_result.enterprise_id⟩
                    metadata := none }
                .ok { response :=
                        { status := status
                          headers := response.headers ++
                            [(TRACE_ID_HEADER, trace_ctx.trace_id)]
                          body := response.body }
                      forwarded := true
                      receipts := [receipt] }

/-- `main::handle_all`: any error escaping the interceptor is mapped to a
bare `500 INTERNAL_SERVER_ERROR` (no receipt, no forward). -/
def handle_all (env : Env) (inp : Inbound) : Outcome :=
  match intercept env inp with
  | .ok outcome => outcome
  | .err _ =>
      { response := { status := 500, headers := [], body := "" }
        forwarded := false
        receipts := [] }

/-- The identity stage fails: network/HTTP error, or `valid = false`, or
`revoked = true`. -/
def identityFails (env : Env) : Bool :=
  match env.identity with
  | .err _ => true
  | .ok r => !r.valid || r.revoked

/-- The policy stage fails: network error or `allowed = false`. -/
def policyFails (env : Env) : Bool :=
  match env.policy with
  | .err _ => true
  | .ok r => !r.allowed

end Gateway

/-! ## Identity Registry (C2): `api/handlers.rs`, `api/trust_handlers.rs` -/

namespace Registry

/-- `developers` row (surrogate UUIDs as strings). -/
structure Developer where
  id : String
  developer_id : String
  enterprise_id : Option String
  public_key : String
deriving DecidableEq

/-- `agents` row (the columns touched by `register_agent`). -/
structure AgentRow where
  id : String
  agent_id : String
  developer_id : String
  enterprise_id : Option String
  public_key : String
  certificate_chain : String
deriving DecidableEq

/-- `enterprises` row (the columns touched by `register_agent`). -/
structure Enterprise where
  id : String
  enterprise_id : String
deriving DecidableEq

structure RegState where
  developers : List Developer
  agents : List AgentRow
  enterprises : List Enterprise
deriving DecidableEq

/-- `RegisterAgentRequest` (the Phase 1 `tenant_id`/`attribution` fields are
accepted but unused by the handler). -/
structure RegisterAgentRequest where
  agent_id : String
  developer_id : String
  enterprise_id : Option String
  public_key : String
  tenant_id : Option String
  attribution : Option Json

structure RegisterAgentResponse where
  agent_id : String
  certificate_chain : String
  created_at : String

/-- `handlers::register_agent`.  `cert` is the result of
`ca.issue_agent_certificate`; `fresh_id` the generated agent UUID; `now_text`
the response timestamp.  The enterprise-mismatch comparison is the source's
string comparison of the developer's stored enterprise id (a UUID rendered
with `to_string()`, here already a string) against the request's enterprise
id. -/
def register_agent (st : RegState) (payload : RegisterAgentRequest)
    (fresh_id now_text : String) (cert : CallResult String) :
    Except (Nat × String) RegisterAgentResponse × RegState :=
  match st.developers.find? (fun d => d.developer_id = payload.developer_id) with
  | none => (.error (404, "developer_not_found"), st)
  | some developer =>
    let mismatch : Bool :=
      match payload.enterprise_id, developer.enterprise_id with
      | some enterprise_id, some dev_enterprise_id => dev_enterprise_id ≠ enterprise_id
      | _, _ => false
    if mismatch then (.error (400, "enterprise_mismatch"), st)
    else if st.agents.any (fun a => a.agent_id = payload.agent_id) then
      (.error (409, "agent_exists"), st)
    else
      match cert with
      | .err _ => (.error (500, "certificate_error"), st)
      | .ok certificate_chain =>
          let enterprise_id_uuid :=
            payload.enterprise_id.bind (fun eid =>
              (st.enterprises.find? (fun e => e.enterprise_id = eid)).map (·.id))
          let agent : AgentRow :=
            { id := fresh_id
              agent_id := payload.agent_id
              developer_id := developer.id
              enterprise_id := enterprise_id_uuid
              public_key := payload.public_key
              certificate_chain := certificate_chain }
          (.ok { agent_id := payload.agent_id
                 certificate_chain := certificate_chain
                 created_at := now_text },
           { st with agents := st.agents ++ [agent] })

/-! ### Trust scores (`db/models.rs`, `api/trust_handlers.rs`) -/

/-- `TrustDimensionScores`; `f64` values as rationals. -/
structure TrustDimensionScores where
  behavior : Rat
  validation : Rat
  provenance : Rat
  alignment : Rat
  reputation : Rat
deriving DecidableEq

/-- `TrustDimensionScores::calculate_composite`: equal weighting. -/
def TrustDimensionScores.calculate_composite (d : TrustDimensionScores) : Rat :=
  (d.behavior + d.validation + d.provenance + d.alignment + d.reputation) / 5

/-- `trust_scores` row (decimal columns as rationals; `calculation_inputs`,
untouched by these handlers, elided). -/
structure TrustScore where
  id : String
  entity_type : String
  entity_id : String
  composite_score : Rat
  confidence_level : Rat
  dimension_scores : TrustDimensionScores
  calculation_version : String
  last_calculated_at : Nat
  minimum_threshold : Option Rat
  threshold_action : Option String
  created_at : Nat
  updated_at : Nat
deriving DecidableEq

/-- `trust_score_history` row. -/
structure TrustScoreHistory where
  id : String
  trust_score_id : String
  composite_score : Rat
  dimension_scores : TrustDimensionScores
  change_reason : Option String
  change_event_id : Option String
  recorded_at : Nat
deriving DecidableEq

structure TrustState where
  scores : List TrustScore
  history : List TrustScoreHistory
deriving DecidableEq

structure UpdateTrustDimensionRequest where
  dimension : String
  delta : Rat
  reason : String
  event_id : Option String
deriving DecidableEq

structure TrustThresholdStatus where
  minimum_threshold : Option Rat
  is_above_threshold : Bool
  action_if_below : Option String
deriving DecidableEq

structure TrustScoreResponse where
  entity_type : String
  entity_id : String
  composite_score : Rat
  confidence_level : Rat
  dimensions : TrustDimensionScores
  threshold_status : TrustThresholdStatus
  last_calculated_at : Nat
deriving DecidableEq

/-- `f64::clamp(0.0, 1.0)`. -/
def clamp01 (x : Rat) : Rat := if x < 0 then 0 else if 1 < x then 1 else x

/-- `str::to_lowercase` (the dimension names the handler compares against
are ASCII, where Unicode lowercasing is the per-character ASCII map). -/
def to_lowercase (s : String) : String := ⟨s.data.map Char.toLower⟩

/-- The `match payload.dimension.to_lowercase().as_str()` block of
`update_trust_dimension`: apply the delta, clamped to [0,1], to the named
dimension; `none` for an unknown dimension. -/
def applyDelta (dimensions : TrustDimensionScores) (name : String) (delta : Rat) :
    Option TrustDimensionScores :=
  match to_lowercase name with
  | "behavior" => some { dimensions with behavior := clamp01 (dimensions.behavior + delta) }
  | "validation" => some { dimensions with validation := clamp01 (dimensions.validation + delta) }
  | "provenance" => some { dimensions with provenance := clamp01 (dimensions.provenance + delta) }
  | "alignment" => some { dimensions with alignment := clamp01 (dimensions.alignment + delta) }
  | "reputation" => some { dimensions with reputation := clamp01 (dimensions.reputation + delta) }
  | _ => none

/-- Value of a dimension by (lower-cased) name. -/
def getDim (d : TrustDimensionScores) : String → Option Rat
  | "behavior" => some d.behavior
  | "validation" => some d.validation
  | "provenance" => some d.provenance
  | "alignment" => some d.alignment
  | "reputation" => some d.reputation
  | _ => none

/-- Database writes of `update_trust_dimension`, in issue order. -/
inductive TrustDbOp where
  | insert_history (row : TrustScoreHistory)
  | update_score (row : TrustScore)
deriving DecidableEq

/-- `trust_handlers::update_trust_dimension`: read the current score,
apply the clamped delta (unknown dimension → 400), write the history row
capturing the pre-change state, then update the live row; both writes
carry the same `now`. -/
def update_trust_dimension (st : TrustState) (entity_type entity_id : String)
    (payload : UpdateTrustDimensionRequest) (now : Nat) (fresh_history_id : String) :
    Except (Nat × String) TrustScoreResponse × TrustState × List TrustDbOp :=
  match st.scores.find? (fun s => s.entity_type = entity_type &&
      s.entity_id = entity_id) with
  | none => (.error (404, "trust_score_not_found"), st, [])
  | some current =>
    match applyDelta current.dimension_scores payload.dimension payload.delta with
    | none => (.error (400, "invalid_dimension"), st, [])
    | some dimensions =>
      let new_composite := dimensions.calculate_composite
      let history_row : TrustScoreHistory :=
        { id := fresh_history_id
          trust_score_id := current.id
          composite_score := current.composite_score
          dimension_scores := current.dimension_scores
          change_reason := some payload.reason
          change_event_id := payload.event_id
          recorded_at := now }
      let score : TrustScore :=
        { current with
            composite_score := new_composite
            dimension_scores := dimensions
            last_calculated_at := now
            updated_at := now }
      let response : TrustScoreResponse :=
        { entity_type := score.entity_type
          entity_id := score.entity_id
          composite_score := score.composite_score
          confidence_level := score.confidence_level
          dimensions := dimensions
          threshold_status :=
            { minimum_threshold := score.minimum_threshold
              is_above_threshold :=
                (score.minimum_threshold.map
                  (fun t => decide (t ≤ score.composite_score))).getD true
              action_if_below := score.threshold_action }
          last_calculated_at := score.last_calculated_at }
      (.ok response,
       { scores := st.scores.map (fun s =>
           if s.entity_type = entity_type && s.entity_id = entity_id then score else s)
         history := st.history ++ [history_row] },
       [.insert_history history_row, .update_score score])

end Registry

/-! ## Policy Engine (C3): `engine.rs` -/

namespace PolicyEngine

structure TrustDimensions where
  behavior : Rat
  validation : Rat
  provenance : Rat
  alignment : Rat
  reputation : Rat
deriving DecidableEq

structure TrustContext where
  composite_score : Rat
  dimensions : TrustDimensions
  threshold : Option Rat
  threshold_action : Option String
deriving DecidableEq

structure AttributionContext where
  creator_id : Option String
  publisher_id : Option String
  audit_visibility_scope : String
deriving DecidableEq

structure AgentInfoV2 where
  valid : Bool
  revoked : Bool
  agent_id : String
  developer_id : String
  enterprise_id : Option String
  tenant_id : Option String
  tenant_hierarchy_path : Option (List String)
  trust_score : Option TrustContext
  attribution : Option AttributionContext
deriving DecidableEq

structure RequestInfo where
  method : String
  path : String
  headers : List (String × String)
  body_hash : Option String
deriving DecidableEq

structure TenantGovernance where
  policy_scope : String
  custom_policies : Option (List String)
  trust_threshold_override : Option Rat
deriving DecidableEq

structure PolicyContext where
  trace_id : Option String
  correlation_id : Option String
  tenant_governance : Option TenantGovernance
deriving DecidableEq

structure PolicyRequestV2 where
  agent : AgentInfoV2
  request : RequestInfo
  context : PolicyContext
deriving DecidableEq

structure PolicyWarning where
  code : String
  message : String
  severity : String
deriving DecidableEq

structure TrustEvaluationResult where
  trust_score_checked : Bool
  trust_score : Option Rat
  threshold : Rat
  passed : Bool
  action_taken : Option String
deriving DecidableEq

structure PolicyResponseV2 where
  allowed : Bool
  reason : String
  evaluation_time_ms : Nat
  trust_evaluation : Option TrustEvaluationResult
  tenant_policy_applied : Option String
  warnings : List PolicyWarning
deriving DecidableEq

/-- One element of the `warnings` extraction `filter_map`: `code` and
`message` must be present strings and the `severity` key must be present
(any non-string severity falls back to `"info"`); otherwise the entry is
dropped. -/
def parseWarning (w : Json) : Option PolicyWarning :=
  match (w.get? "code").bind Json.asStr, (w.get? "message").bind Json.asStr,
      w.get? "severity" with
  | some code, some message, some severity =>
      some { code, message, severity := severity.asStr.getD "info" }
  | _, _, _ => none

/-- `opa_result.get("result").unwrap_or(&Value::Null)`. -/
def resultDoc (opa_result : Json) : Json := (opa_result.get? "result").getD .null

/-- `result.get("trust_action").and_then(as_str)`. -/
def trustActionOf (opa_result : Json) : Option String :=
  ((resultDoc opa_result).get? "trust_action").bind Json.asStr

/-- `result.get("applied_threshold").and_then(as_f64).unwrap_or(0.3)`. -/
def appliedThresholdOf (opa_result : Json) : Rat :=
  (((resultDoc opa_result).get? "applied_threshold").bind Json.asNum).getD (3/10 : Rat)

/-- The document-processing tail of `OPAEngine::evaluate_v2`, applied once a
2xx evaluator response with body `opa_result` has been received
(`evaluation_time` is the measured wall time). -/
def evaluate_v2_result (request : PolicyRequestV2) (evaluation_time : Nat)
    (opa_result : Json) : PolicyResponseV2 :=
  let result := resultDoc opa_result
  let allowed := ((result.get? "allow").bind Json.asBool).getD false
  let trust_action := trustActionOf opa_result
  let applied_threshold := appliedThresholdOf opa_result
  let applied_tenant_policy := (result.get? "applied_tenant_policy").bind Json.asStr
  let warnings := (((result.get? "warnings").bind Json.asArr).map
      (fun arr => arr.filterMap parseWarning)).getD []
  let trust_evaluation := request.agent.trust_score.map (fun ts =>
    { trust_score_checked := true
      trust_score := some ts.composite_score
      threshold := applied_threshold
      passed := decide (applied_threshold ≤ ts.composite_score)
      action_taken := trust_action })
  let reason :=
    if allowed then "Policy allows request"
    else if trust_action = some "block" then "Trust score below minimum threshold"
    else "Policy denies request"
  { allowed := allowed
    reason := reason
    evaluation_time_ms := evaluation_time
    trust_evaluation := trust_evaluation
    tenant_policy_applied := applied_tenant_policy
    warnings := warnings }

/-- Non-2xx branch of `evaluate_v2` (`status_text` renders the HTTP status). -/
def evaluate_v2_error (status_text : String) (evaluation_time : Nat) : PolicyResponseV2 :=
  { allowed := false
    reason := "OPA evaluation failed: " ++ status_text
    evaluation_time_ms := evaluation_time
    trust_evaluation := none
    tenant_policy_applied := none
    warnings := [] }

end PolicyEngine

/-! ## Receipt Store read path (C4): `queries.rs` -/

namespace Queries

/-- `receipt_events` row as fetched by `get_receipt_events` (timestamps as
abstract instants). -/
structure ReceiptEventRow where
  id : String
  receipt_id : String
  trace_id : String
  correlation_id : Option String
  span_id : String
  parent_span_id : Option String
  timestamp : Nat
  event_type : String
  event_source_system : String
  event_source_service : String
  event_source_version : Option String
  agent_id : Option String
  developer_id : Option String
  enterprise_id : Option String
  request_method : Option String
  request_path : Option String
  request_headers : Option Json
  request_body_hash : Option String
  policy_allowed : Option Bool
  policy_version : Option String
  policy_evaluation_ms : Option Int
  identity_valid : Option Bool
  metadata : Option Json
  full_receipt : Json
  receipt_hash : String
  previous_receipt_hash : Option String
  created_at : Nat

/-- `external_events` row as fetched by `get_external_events`. -/
structure ExternalEventRow where
  id : String
  event_id : String
  trace_id : String
  correlation_id : Option String
  event_type : String
  source_system : String
  source_id : String
  timestamp : Nat
  actor_type : Option String
  actor_id : Option String
  actor_display_name : Option String
  payload : Json
  metadata : Option Json
  created_at : Nat

structure EventOutcome where
  success : Bool
  reason : Option String

structure TimelineEvent where
  event_id : String
  timestamp : Nat
  event_type : String
  source_system : String
  source_service : String
  agent_id : Option String
  summary : String
  outcome : EventOutcome
  details : Json

/-- The receipt-event arm of `get_timeline`'s conversion loop. -/
def receiptTimelineEvent (event : ReceiptEventRow) : TimelineEvent :=
  { event_id := event.receipt_id
    timestamp := event.timestamp
    event_type := event.event_type
    source_system := event.event_source_system
    source_service := event.event_source_service
    agent_id := event.agent_id
    summary := (event.request_method.getD "?") ++ " " ++ (event.request_path.getD "?") ++
      " - " ++ (if event.policy_allowed.getD false then "Allowed" else "Denied")
    outcome :=
      { success := (event.policy_allowed.getD false) && (event.identity_valid.getD false)
        reason :=
          if !(event.policy_allowed.getD true) then some "Policy denied"
          else if !(event.identity_valid.getD true) then some "Identity invalid"
          else none }
    details := event.full_receipt }

/-- The external-event arm of `get_timeline`'s conversion loop. -/
def externalTimelineEvent (event : ExternalEventRow) : TimelineEvent :=
  let actor_name := (event.actor_display_name.or event.actor_id).getD "System"
  { event_id := event.event_id
    timestamp := event.timestamp
    event_type := event.event_type
    source_system := event.source_system
    source_service := event.source_id
    agent_id := event.actor_id
    summary := event.event_type ++ " by " ++ actor_name ++ " (" ++ event.source_system ++ ")"
    outcome := { success := true, reason := none }
    details := event.payload }

/-- `QueryService::get_timeline` applied to the per-trace row sets: convert
receipts, convert externals, then stable-sort by timestamp
(`sort_by(timestamp.cmp)`). -/
def get_timeline (receipt_events : List ReceiptEventRow)
    (external_events : List ExternalEventRow) : List TimelineEvent :=
  ((receipt_events.map receiptTimelineEvent) ++
    (external_events.map externalTimelineEvent)).mergeSort
      (fun a b => decide (a.timestamp ≤ b.timestamp))

end Queries

namespace ReceiptStore

lemma latestRow_append (rows : List ChainRow) (new : ChainRow)
    (h : ∀ row ∈ rows, row.timestamp < new.timestamp) :
    latestRow (rows ++ [new]) = some new := by
  induction rows with
  | nil => rfl
  | cons r rest ih =>
      have hr := h r (by simp)
      have htail : latestRow (rest ++ [new]) = some new :=
        ih (fun row hrow => h row (by simp [hrow]))
      have hstep : latestRow ((r :: rest) ++ [new]) =
          match latestRow (rest ++ [new]) with
          | none => some r
          | some best => if r.timestamp ≤ best.timestamp then some best else some r := rfl
      rw [hstep, htail]
      exact if_pos (Nat.le_of_lt hr)

lemma store_receipt_hash_fresh (rows : List ChainRow) (id hash : String) (now : Nat)
    (h : id ∉ rows.map (·.receipt_id)) :
    store_receipt_hash rows id hash now = rows ++ [⟨id, hash, now⟩] := by
  have hany : rows.any (fun row => row.receipt_id = id) = false := by
    rw [List.any_eq_false]
    intro row hrow
    simp only [decide_eq_true_eq]
    intro heq
    exact h (List.mem_map.mpr ⟨row, hrow, heq⟩)
  simp [store_receipt_hash, hany]

lemma store_receipt_some_fst (d : DBState) (now : Nat) (gen : StoreGen)
    (request : ReceiptRequest) :
    (store_receipt (some d) now gen request).1 =
      some (DBState.mk (store_receipt_hash d.receipts
        (store_receipt (some d) now gen request).2.2.receipt_id
        (store_receipt (some d) now gen request).2.2.receipt_hash now)) := rfl

lemma store_receipt_some_prev (d : DBState) (now : Nat) (gen : StoreGen)
    (request : ReceiptRequest) :
    (store_receipt (some d) now gen request).2.2.previous_receipt_hash =
      get_latest_receipt_hash d.receipts := rfl

lemma store_receipt_some_id (d : DBState) (now : Nat) (gen : StoreGen)
    (request : ReceiptRequest) :
    (store_receipt (some d) now gen request).2.2.receipt_id = gen.receipt_id := rfl

lemma runStoresAux_cons_fst (db : Option DBState) (now : Nat) (c : StoreCall)
    (rest : List StoreCall) :
    (runStoresAux db now (c :: rest)).1 =
      (store_receipt db now c.gen c.request).2.2 ::
        (runStoresAux (store_receipt db now c.gen c.request).1 (now + 1) rest).1 := rfl

/-- Single-writer chain invariant: from any store state whose rows are all
older than the clock and whose pending calls use fresh, pairwise distinct
receipt ids, the produced receipts link hash-to-hash, and the first one links
to the current latest row. -/
lemma runStoresAux_chain (calls : List StoreCall) :
    ∀ (d : DBState) (now : Nat),
      (∀ row ∈ d.receipts, row.timestamp < now) →
      (∀ c ∈ calls, c.gen.receipt_id ∉ d.receipts.map (·.receipt_id)) →
      ((calls.map (·.gen.receipt_id)).Nodup) →
      (∀ r, (runStoresAux (some d) now calls).1.head? = some r →
          r.previous_receipt_hash = get_latest_receipt_hash d.receipts) ∧
      List.Chain' (fun a b => b.previous_receipt_hash = some a.receipt_hash)
        (runStoresAux (some d) now calls).1 := by
  induction calls with
  | nil =>
      intro d now _ _ _
      exact ⟨fun r hr => by simp [runStoresAux] at hr, by simp [runStoresAux]⟩
  | cons c rest ih =>
      intro d now hts hfresh hnodup
      have hfreshc : c.gen.receipt_id ∉ d.receipts.map (·.receipt_id) :=
        hfresh c (by simp)
      have hfst := store_receipt_some_fst d now c.gen c.request
      have hprev := store_receipt_some_prev d now c.gen c.request
      have hid := store_receipt_some_id d now c.gen c.request
      have hcons := runStoresAux_cons_fst (some d) now c rest
      -- abstract the step into opaque components
      generalize hstep : store_receipt (some d) now c.gen c.request = step at hfst hprev hid hcons
      obtain ⟨db', eff, r⟩ := step
      simp only at hfst hprev hid hcons
      rw [hid, store_receipt_hash_fresh _ _ _ _ hfreshc] at hfst
      rw [hcons, hfst]
      have hts' : ∀ row ∈ d.receipts ++ [ChainRow.mk c.gen.receipt_id r.receipt_hash now],
          row.timestamp < now + 1 := by
        intro row hrow
        rcases List.mem_append.mp hrow with hrow | hrow
        · exact Nat.lt_succ_of_lt (hts row hrow)
        · rw [List.mem_singleton.mp hrow]; exact Nat.lt_succ_self now
      have hfresh' : ∀ c' ∈ rest, c'.gen.receipt_id ∉
          (d.receipts ++ [ChainRow.mk c.gen.receipt_id r.receipt_hash now]).map
            (·.receipt_id) := by
        intro c' hc'
        simp only [List.map_append, List.map_cons, List.map_nil, List.mem_append,
          List.mem_singleton, not_or]
        refine ⟨hfresh c' (by simp [hc']), ?_⟩
        intro heq
        have hmem : c.gen.receipt_id ∈ rest.map (·.gen.receipt_id) :=
          List.mem_map.mpr ⟨c', hc', heq⟩
        simp only [List.map_cons, List.nodup_cons] at hnodup
        exact hnodup.1 hmem
      have hnodup' : (rest.map (·.gen.receipt_id)).Nodup := by
        simp only [List.map_cons, List.nodup_cons] at hnodup
        exact hnodup.2
      obtain ⟨ihHead, ihChain⟩ :=
        ih (DBState.mk (d.receipts ++ [⟨c.gen.receipt_id, r.receipt_hash, now⟩])) (now + 1)
          hts' hfresh' hnodup'
      have hlatest : get_latest_receipt_hash
          (d.receipts ++ [ChainRow.mk c.gen.receipt_id r.receipt_hash now]) =
            some r.receipt_hash := by
        unfold get_latest_receipt_hash
        rw [latestRow_append _ _ (fun row hrow => hts row hrow)]
        rfl
      constructor
      · intro r0 hr0
        simp only [List.head?_cons, Option.some_inj] at hr0
        rw [← hr0, hprev]
      · rw [List.chain'_cons']
        refine ⟨?_, ihChain⟩
        intro b hb
        have hblink := ihHead b (by simpa using hb)
        rw [hblink, hlatest]

end ReceiptStore

lemma receipt_new_hash (receipt_id timestamp trace_id : String)
    (correlation_id : Option String) (span_id : String)
    (parent_span_id : Option String) (agent_id : String)
    (event_type : ReceiptStore.EventType) (event_source : ReceiptStore.EventSource)
    (request : ReceiptStore.RequestInfo) (policy_result : ReceiptStore.PolicyResult)
    (identity_result : ReceiptStore.IdentityResult) (metadata : Option Json)
    (previous_receipt_hash : Option String) :
    (ReceiptStore.Receipt.new receipt_id timestamp trace_id correlation_id span_id
        parent_span_id agent_id event_type event_source request policy_result
        identity_result metadata previous_receipt_hash).calculate_hash =
      (ReceiptStore.Receipt.new receipt_id timestamp trace_id correlation_id span_id
        parent_span_id agent_id event_type event_source request policy_result
        identity_result metadata previous_receipt_hash).receipt_hash := rfl

lemma receiptV2_new_hash (receipt_id timestamp trace_id : String)
    (correlation_id : Option String) (span_id : String)
    (parent_span_id : Option String) (agent_id : String)
    (event_type : ReceiptStore.EventType) (event_source : ReceiptStore.EventSource)
    (request : ReceiptStore.RequestInfo) (policy_result : ReceiptStore.PolicyResultV2)
    (identity_result : ReceiptStore.IdentityResultV2) (metadata : Option Json)
    (previous_receipt_hash : Option String) :
    (ReceiptStore.ReceiptV2.new receipt_id timestamp trace_id correlation_id span_id
        parent_span_id agent_id event_type event_source request policy_result
        identity_result metadata previous_receipt_hash).calculate_hash =
      (ReceiptStore.ReceiptV2.new receipt_id timestamp trace_id correlation_id span_id
        parent_span_id agent_id event_type event_source request policy_result
        identity_result metadata previous_receipt_hash).receipt_hash := rfl

/-! ## Sample fixtures used by the witnesses -/

def sampleRequestInfo : ReceiptStore.RequestInfo :=
  ⟨"GET", "/api/foo", [("host", "backend")], none⟩

def sampleReceiptRequest : ReceiptStore.ReceiptRequest :=
  { trace_id := some "11111111-1111-1111-1111-111111111111"
    correlation_id := none
    span_id := some "22222222-2222-2222-2222-222222222222"
    parent_span_id := none
    agent_id := "agent1"
    event_type := some .gateway_request
    event_source := none
    request := sampleRequestInfo
    policy_result := ⟨true, "v1", 5⟩
    identity_result := ⟨true, "dev-uuid-1", none⟩
    metadata := none }

def sampleGen1 : ReceiptStore.StoreGen :=
  ⟨"r-0001", "t-0001", "s-0001", "2026-01-01T00:00:00+00:00", "te-0001"⟩

def sampleGen2 : ReceiptStore.StoreGen :=
  ⟨"r-0002", "t-0002", "s-0002", "2026-01-01T00:00:01+00:00", "te-0002"⟩

def sampleCall1 : ReceiptStore.StoreCall := ⟨sampleGen1, sampleReceiptRequest⟩

def sampleCall2 : ReceiptStore.StoreCall := ⟨sampleGen2, sampleReceiptRequest⟩

/-! ## Claims -/

/-- C1: every receipt produced by `Receipt::new` / `store_receipt` has
`receipt_hash` equal to the hex SHA-256 of the canonical JSON encoding of all
receipt fields except `receipt_hash` itself, with keys in the normative
order `receipt_id, trace_id, correlation_id, span_id, parent_span_id,
timestamp (RFC 3339), agent_id, event_type, event_source, request,
policy_result, identity_result, metadata, previous_receipt_hash` and null
fields included as JSON null; equivalently, recomputing `calculate_hash` on
the finished receipt reproduces the stored hash. -/
theorem receipt_hash_integrity (receipt_id timestamp trace_id : String)
    (correlation_id : Option String) (span_id : String)
    (parent_span_id : Option String) (agent_id : String)
    (event_type : ReceiptStore.EventType) (event_source : ReceiptStore.EventSource)
    (request : ReceiptStore.RequestInfo) (policy_result : ReceiptStore.PolicyResult)
    (identity_result : ReceiptStore.IdentityResult) (metadata : Option Json)
    (previous_receipt_hash : Option String) :
    (ReceiptStore.Receipt.new receipt_id timestamp trace_id correlation_id span_id
        parent_span_id agent_id event_type event_source request policy_result
        identity_result metadata previous_receipt_hash).receipt_hash =
      SHA256.sha256hex (Json.render (Json.obj
        [("receipt_id", Json.str receipt_id),
         ("trace_id", Json.str trace_id),
         ("correlation_id", Json.ofOption Json.str correlation_id),
         ("span_id", Json.str span_id),
         ("parent_span_id", Json.ofOption Json.str parent_span_id),
         ("timestamp", Json.str timestamp),
         ("agent_id", Json.str agent_id),
         ("event_type", event_type.toJson),
         ("event_source", event_source.toJson),
         ("request", request.toJson),
         ("policy_result", policy_result.toJson),
         ("identity_result", identity_result.toJson),
         ("metadata", Json.ofOption id metadata),
         ("previous_receipt_hash", Json.ofOption Json.str previous_receipt_hash)])) ∧
    (ReceiptStore.Receipt.new receipt_id timestamp trace_id correlation_id span_id
        parent_span_id agent_id event_type event_source request policy_result
        identity_result metadata previous_receipt_hash).calculate_hash =
      (ReceiptStore.Receipt.new receipt_id timestamp trace_id correlation_id span_id
        parent_span_id agent_id event_type event_source request policy_result
        identity_result metadata previous_receipt_hash).receipt_hash ∧
    ∀ (db : Option ReceiptStore.DBState) (now : Nat) (gen : ReceiptStore.StoreGen)
      (req : ReceiptStore.ReceiptRequest),
      ((ReceiptStore.store_receipt db now gen req).2.2).calculate_hash =
        ((ReceiptStore.store_receipt db now gen req).2.2).receipt_hash := by
  refine ⟨rfl, receipt_new_hash .., ?_⟩
  intro db now gen req
  cases db <;> exact receipt_new_hash ..

/-- C2: in a single-writer sequence of `store_receipt` calls against an
initially empty store, the first receipt persisted has
`previous_receipt_hash = null`, and every later receipt's
`previous_receipt_hash` equals the `receipt_hash` of the receipt persisted
immediately before it (the most recent row by timestamp at materialisation
time). -/
theorem chain_linkage_single_writer (c : ReceiptStore.StoreCall)
    (cs : List ReceiptStore.StoreCall)
    (h : (((c :: cs).map (·.gen.receipt_id))).Nodup) :
    ((ReceiptStore.runStores (c :: cs)).1.head?.map (·.previous_receipt_hash) =
      some none) ∧
    List.Chain' (fun a b => b.previous_receipt_hash = some a.receipt_hash)
      (ReceiptStore.runStores (c :: cs)).1 := by
  obtain ⟨hHead, hChain⟩ :=
    ReceiptStore.runStoresAux_chain (c :: cs) ⟨[]⟩ 0 (by simp) (by simp) h
  refine ⟨?_, hChain⟩
  have hcons := ReceiptStore.runStoresAux_cons_fst (some ⟨[]⟩) 0 c cs
  have hprev := ReceiptStore.store_receipt_some_prev ⟨[]⟩ 0 c.gen c.request
  show (ReceiptStore.runStoresAux (some ⟨[]⟩) 0 (c :: cs)).1.head?.map
      (·.previous_receipt_hash) = some none
  rw [hcons]
  simp only [List.head?_cons, Option.map_some']
  rw [hprev]
  rfl

theorem chain_linkage_single_writer_witness :
    ((([sampleCall1, sampleCall2].map (·.gen.receipt_id))).Nodup) ∧
    (((ReceiptStore.runStores [sampleCall1, sampleCall2]).1.head?.map
        (·.previous_receipt_hash) = some none) ∧
     List.Chain' (fun a b => b.previous_receipt_hash = some a.receipt_hash)
       (ReceiptStore.runStores [sampleCall1, sampleCall2]).1) :=
  ⟨by decide, chain_linkage_single_writer sampleCall1 [sampleCall2] (by decide)⟩

/-- C10: with no database pool configured, `store_receipt` and
`store_receipt_v2` still succeed: the returned receipt is fully hashed and
has `previous_receipt_hash = null`, no relational write is issued, exactly
the best-effort Kafka and S3 fan-outs are attempted, and the write handler
reports `stored = true`; only the read-side handlers reject with 503
`database_unavailable`. -/
theorem store_without_database (now : Nat) (gen : ReceiptStore.StoreGen)
    (req : ReceiptStore.ReceiptRequest) (reqV2 : ReceiptStore.ReceiptRequestV2) :
    ((ReceiptStore.store_receipt none now gen req).1 = none ∧
     (ReceiptStore.store_receipt none now gen req).2.1.dbOps = [] ∧
     (ReceiptStore.store_receipt none now gen req).2.2.previous_receipt_hash = none ∧
     (ReceiptStore.store_receipt none now gen req).2.1.kafka =
       [(ReceiptStore.store_receipt none now gen req).2.2.toJson.render] ∧
     (ReceiptStore.store_receipt none now gen req).2.1.s3 =
       [(ReceiptStore.store_receipt none now gen req).2.2.toJson.render] ∧
     (ReceiptStore.store_receipt none now gen req).2.2.calculate_hash =
       (ReceiptStore.store_receipt none now gen req).2.2.receipt_hash ∧
     (ReceiptStore.api_store_receipt none now gen req).2.2.stored = true) ∧
    ((ReceiptStore.store_receipt_v2 none now gen reqV2).1 = none ∧
     (ReceiptStore.store_receipt_v2 none now gen reqV2).2.1.dbOps = [] ∧
     (ReceiptStore.store_receipt_v2 none now gen reqV2).2.2.previous_receipt_hash = none ∧
     (ReceiptStore.store_receipt_v2 none now gen reqV2).2.1.kafka =
       [(ReceiptStore.store_receipt_v2 none now gen reqV2).2.2.toJson.render] ∧
     (ReceiptStore.store_receipt_v2 none now gen reqV2).2.1.s3 =
       [(ReceiptStore.store_receipt_v2 none now gen reqV2).2.2.toJson.render] ∧
     (ReceiptStore.store_receipt_v2 none now gen reqV2).2.2.calculate_hash =
       (ReceiptStore.store_receipt_v2 none now gen reqV2).2.2.receipt_hash) ∧
    ReceiptStore.db_pool_or_503 none = .error (503, "database_unavailable") := by
  refine ⟨⟨rfl, rfl, rfl, rfl, rfl, receipt_new_hash .., rfl⟩,
          ⟨rfl, rfl, rfl, rfl, rfl, receiptV2_new_hash ..⟩, rfl⟩

def sampleEnvIdentityErr : Gateway.Env :=
  ⟨.err "connection refused", .ok ⟨true, "Policy allows request", 3⟩, .ok ⟨200, [], "ok"⟩⟩

def sampleInbound : Gateway.Inbound :=
  ⟨"GET", "/api/foo", [("x-pathwell-agent-id", "agent1")], "", "tid-1", "sid-1", 7⟩

def sampleInboundNoAgent : Gateway.Inbound :=
  ⟨"GET", "/api/foo", [("host", "backend")], "", "tid-1", "sid-1", 0⟩

def sampleEnvAllOk : Gateway.Env :=
  ⟨.ok ⟨true, "agent1", "dev-uuid-1", none, false⟩,
   .ok ⟨true, "Policy allows request", 3⟩, .ok ⟨200, [], "ok"⟩⟩

/-- C3: whenever the identity check or the policy check returns an error or a
negative result (and the agent header is present, so the interceptor runs),
the gateway replies with a 4xx/5xx status, never issues the upstream forward,
and emits exactly one denial receipt with `policy_result.allowed = false` and
metadata `{error_reason, status_code}`. -/
theorem gateway_fail_closed (env : Gateway.Env) (inp : Gateway.Inbound)
    (hagent : (Gateway.getHeader inp.headers Gateway.AGENT_ID_HEADER).isSome = true)
    (hfail : Gateway.identityFails env = true ∨ Gateway.policyFails env = true) :
    (400 ≤ (Gateway.handle_all env inp).response.status ∧
      (Gateway.handle_all env inp).response.status ≤ 599) ∧
    (Gateway.handle_all env inp).forwarded = false ∧
    ∃ reason, (Gateway.handle_all env inp).receipts.map
        (fun r => (r.policy_result.allowed, r.metadata)) =
      [(false, some (Json.obj [("error_reason", Json.str reason),
        ("status_code",
          Json.num ((Gateway.handle_all env inp).response.status : Rat))]))] := by
  obtain ⟨agent_id, hga⟩ := Option.isSome_iff_exists.mp hagent
  obtain ⟨status, reason, h4, h5, heq⟩ :
      ∃ status reason, 400 ≤ status ∧ status ≤ 599 ∧
        Gateway.handle_all env inp =
          Gateway.create_error_response status reason agent_id
            (Gateway.extract_trace_context inp.headers inp.fresh_trace_id
              inp.fresh_span_id)
            inp.method inp.path inp.headers
            (some (SHA256.sha256hex inp.body)) inp.elapsed_ms := by
    cases hid : env.identity with
    | err e =>
        refine ⟨403, "Identity validation failed: " ++ e, by omega, by omega, ?_⟩
        simp [Gateway.handle_all, Gateway.intercept, hga, hid]
    | ok v =>
      cases hv : (!v.valid || v.revoked) with
      | true =>
          refine ⟨403, "Agent identity invalid or revoked", by omega, by omega, ?_⟩
          simp [Gateway.handle_all, Gateway.intercept, hga, hid, hv]
      | false =>
        have hpf : Gateway.policyFails env = true := by
          rcases hfail with hif | hpf
          · exfalso
            simp [Gateway.identityFails, hid, hv] at hif
          · exact hpf
        cases hp : env.policy with
        | err e =>
            refine ⟨500, "Policy evaluation failed: " ++ e, by omega, by omega, ?_⟩
            simp [Gateway.handle_all, Gateway.intercept, hga, hid, hp, hv]
        | ok p =>
            have hna : p.allowed = false := by
              simp [Gateway.policyFails, hp] at hpf
              simpa using hpf
            refine ⟨403, p.reason, by omega, by omega, ?_⟩
            simp [Gateway.handle_all, Gateway.intercept, hga, hid, hp, hv, hna]
  rw [heq]
  exact ⟨⟨h4, h5⟩, rfl, ⟨reason, rfl⟩⟩

theorem gateway_fail_closed_witness :
    ((Gateway.getHeader sampleInbound.headers Gateway.AGENT_ID_HEADER).isSome = true ∧
     (Gateway.identityFails sampleEnvIdentityErr = true ∨
      Gateway.policyFails sampleEnvIdentityErr = true)) ∧
    ((400 ≤ (Gateway.handle_all sampleEnvIdentityErr sampleInbound).response.status ∧
      (Gateway.handle_all sampleEnvIdentityErr sampleInbound).response.status ≤ 599) ∧
     (Gateway.handle_all sampleEnvIdentityErr sampleInbound).forwarded = false ∧
     ∃ reason, (Gateway.handle_all sampleEnvIdentityErr sampleInbound).receipts.map
        (fun r => (r.policy_result.allowed, r.metadata)) =
      [(false, some (Json.obj [("error_reason", Json.str reason),
        ("status_code",
          Json.num ((Gateway.handle_all sampleEnvIdentityErr
            sampleInbound).response.status : Rat))]))]) :=
  ⟨⟨by decide, Or.inl (by decide)⟩,
   gateway_fail_closed sampleEnvIdentityErr sampleInbound (by decide)
     (Or.inl (by decide))⟩

/-- C8 counterexample: a request without the `x-pathwell-agent-id` header is
answered with HTTP 500, not 400 — the `anyhow` error from the missing header
is mapped to `INTERNAL_SERVER_ERROR` by `handle_all`. -/
theorem missing_agent_header_counterexample :
    (Gateway.handle_all sampleEnvAllOk sampleInboundNoAgent).response.status = 500 ∧
    ¬ (Gateway.handle_all sampleEnvAllOk sampleInboundNoAgent).response.status = 400 := by
  exact ⟨rfl, by decide⟩

/-- C8 (amended): for every inbound gateway request that lacks the
`x-pathwell-agent-id` header, the gateway responds with HTTP status 500
(`handle_all` maps the interceptor's missing-header error to
`INTERNAL_SERVER_ERROR`), does not forward, and emits no receipt. -/
theorem missing_agent_header_500 (env : Gateway.Env) (inp : Gateway.Inbound)
    (h : Gateway.getHeader inp.headers Gateway.AGENT_ID_HEADER = none) :
    (Gateway.handle_all env inp).response.status = 500 ∧
    (Gateway.handle_all env inp).forwarded = false ∧
    (Gateway.handle_all env inp).receipts = [] := by
  simp [Gateway.handle_all, Gateway.intercept, h]

theorem missing_agent_header_500_witness :
    Gateway.getHeader sampleInboundNoAgent.headers Gateway.AGENT_ID_HEADER = none ∧
    ((Gateway.handle_all sampleEnvAllOk sampleInboundNoAgent).response.status = 500 ∧
     (Gateway.handle_all sampleEnvAllOk sampleInboundNoAgent).forwarded = false ∧
     (Gateway.handle_all sampleEnvAllOk sampleInboundNoAgent).receipts = []) :=
  ⟨by decide, missing_agent_header_500 sampleEnvAllOk sampleInboundNoAgent (by decide)⟩

lemma clamp01_mem (x : Rat) : 0 ≤ Registry.clamp01 x ∧ Registry.clamp01 x ≤ 1 := by
  unfold Registry.clamp01
  split
  · exact ⟨le_refl 0, zero_le_one⟩
  · split
    · exact ⟨zero_le_one, le_refl 1⟩
    · next h1 h2 => exact ⟨le_of_not_lt h1, le_of_not_lt h2⟩

lemma applyDelta_bounds (d : Registry.TrustDimensionScores) (name : String)
    (delta : Rat) (nd : Registry.TrustDimensionScores)
    (h : Registry.applyDelta d name delta = some nd) :
    ∃ v, Registry.getDim nd (Registry.to_lowercase name) = some v ∧ 0 ≤ v ∧ v ≤ 1 := by
  unfold Registry.applyDelta at h
  split at h
  all_goals first
  | exact Option.noConfusion h
  | · next heq =>
        rw [Option.some_inj] at h
        subst h
        rw [heq]
        exact ⟨_, rfl, clamp01_mem _⟩

def sampleTrustDims : Registry.TrustDimensionScores := ⟨1/2, 1/2, 1/2, 1/2, 1/2⟩

def sampleTrustScore : Registry.TrustScore :=
  ⟨"ts-1", "agent", "e-1", 1/2, 1/2, sampleTrustDims, "v1.0.0", 10,
   some (3/10), some "block", 5, 10⟩

def sampleTrustState : Registry.TrustState := ⟨[sampleTrustScore], []⟩

def samplePayload : Registry.UpdateTrustDimensionRequest :=
  ⟨"behavior", 1/5, "good behavior", none⟩

def sampleUpdatedDims : Registry.TrustDimensionScores :=
  ⟨Registry.clamp01 (sampleTrustScore.dimension_scores.behavior + samplePayload.delta),
   sampleTrustScore.dimension_scores.validation,
   sampleTrustScore.dimension_scores.provenance,
   sampleTrustScore.dimension_scores.alignment,
   sampleTrustScore.dimension_scores.reputation⟩

/-- C4: for an existing trust score, `update_trust_dimension` leaves the
named dimension clamped to [0,1], stores the updated dimension set together
with a composite equal to the equal-weighted mean of the five dimensions,
and a request naming an unknown dimension returns 400 `invalid_dimension`
without changing the state. -/
theorem trust_dimension_update (st : Registry.TrustState)
    (entity_type entity_id : String)
    (payload : Registry.UpdateTrustDimensionRequest) (now : Nat)
    (fresh_history_id : String) (cur : Registry.TrustScore)
    (hcur : st.scores.find? (fun s => s.entity_type = entity_type &&
      s.entity_id = entity_id) = some cur) :
    (∀ nd, Registry.applyDelta cur.dimension_scores payload.dimension
        payload.delta = some nd →
      (∃ v, Registry.getDim nd (Registry.to_lowercase payload.dimension) = some v ∧
        0 ≤ v ∧ v ≤ 1) ∧
      (∀ s ∈ (Registry.update_trust_dimension st entity_type entity_id payload
          now fresh_history_id).2.1.scores,
        s.entity_type = entity_type → s.entity_id = entity_id →
          s.dimension_scores = nd ∧
          s.composite_score = (s.dimension_scores.behavior +
            s.dimension_scores.validation + s.dimension_scores.provenance +
            s.dimension_scores.alignment + s.dimension_scores.reputation) / 5)) ∧
    (Registry.applyDelta cur.dimension_scores payload.dimension
        payload.delta = none →
      (Registry.update_trust_dimension st entity_type entity_id payload now
        fresh_history_id).1 = .error (400, "invalid_dimension") ∧
      (Registry.update_trust_dimension st entity_type entity_id payload now
        fresh_history_id).2.1 = st) := by
  constructor
  · intro nd happly
    refine ⟨applyDelta_bounds _ _ _ _ happly, ?_⟩
    intro s hs hty hid
    simp only [Registry.update_trust_dimension, hcur, happly] at hs
    obtain ⟨s0, hs0, hfn⟩ := List.mem_map.mp hs
    by_cases hmatch : (s0.entity_type = entity_type ∧ s0.entity_id = entity_id)
    · rw [if_pos (by simp [hmatch.1, hmatch.2])] at hfn
      subst hfn
      exact ⟨rfl, rfl⟩
    · rw [if_neg (by
        simp only [Bool.and_eq_true, decide_eq_true_eq]
        exact fun hc => hmatch hc)] at hfn
      subst hfn
      exact absurd ⟨hty, hid⟩ hmatch
  · intro happly
    constructor
    · simp only [Registry.update_trust_dimension, hcur, happly]
    · simp only [Registry.update_trust_dimension, hcur, happly]

theorem trust_dimension_update_witness :
    (sampleTrustState.scores.find? (fun s => s.entity_type = "agent" &&
      s.entity_id = "e-1") = some sampleTrustScore) ∧
    ((∀ nd, Registry.applyDelta sampleTrustScore.dimension_scores
        samplePayload.dimension samplePayload.delta = some nd →
      (∃ v, Registry.getDim nd (Registry.to_lowercase samplePayload.dimension) =
        some v ∧ 0 ≤ v ∧ v ≤ 1) ∧
      (∀ s ∈ (Registry.update_trust_dimension sampleTrustState "agent" "e-1"
          samplePayload 11 "h-1").2.1.scores,
        s.entity_type = "agent" → s.entity_id = "e-1" →
          s.dimension_scores = nd ∧
          s.composite_score = (s.dimension_scores.behavior +
            s.dimension_scores.validation + s.dimension_scores.provenance +
            s.dimension_scores.alignment + s.dimension_scores.reputation) / 5)) ∧
    (Registry.applyDelta sampleTrustScore.dimension_scores samplePayload.dimension
        samplePayload.delta = none →
      (Registry.update_trust_dimension sampleTrustState "agent" "e-1" samplePayload
        11 "h-1").1 = .error (400, "invalid_dimension") ∧
      (Registry.update_trust_dimension sampleTrustState "agent" "e-1" samplePayload
        11 "h-1").2.1 = sampleTrustState)) :=
  ⟨rfl,
   trust_dimension_update sampleTrustState "agent" "e-1" samplePayload 11 "h-1"
     sampleTrustScore rfl⟩

/-- C5: every successful `update_trust_dimension` issues exactly the history
insert followed by the live-row update (in that order); the history row
records the pre-change composite and pre-change dimensions, and its
`recorded_at` is at most the new `last_calculated_at`. -/
theorem trust_history_written_first (st : Registry.TrustState)
    (entity_type entity_id : String)
    (payload : Registry.UpdateTrustDimensionRequest) (now : Nat)
    (fresh_history_id : String) (cur : Registry.TrustScore)
    (nd : Registry.TrustDimensionScores)
    (hcur : st.scores.find? (fun s => s.entity_type = entity_type &&
      s.entity_id = entity_id) = some cur)
    (happly : Registry.applyDelta cur.dimension_scores payload.dimension
      payload.delta = some nd) :
    ∃ hist score,
      (Registry.update_trust_dimension st entity_type entity_id payload now
        fresh_history_id).2.2 =
        [.insert_history hist, .update_score score] ∧
      hist.composite_score = cur.composite_score ∧
      hist.dimension_scores = cur.dimension_scores ∧
      hist.recorded_at ≤ score.last_calculated_at ∧
      (Registry.update_trust_dimension st entity_type entity_id payload now
        fresh_history_id).2.1.history = st.history ++ [hist] := by
  refine ⟨⟨fresh_history_id, cur.id, cur.composite_score, cur.dimension_scores,
      some payload.reason, payload.event_id, now⟩,
    ⟨cur.id, cur.entity_type, cur.entity_id,
      Registry.TrustDimensionScores.calculate_composite nd, cur.confidence_level,
      nd, cur.calculation_version, now, cur.minimum_threshold,
      cur.threshold_action, cur.created_at, now⟩,
    ?_, rfl, rfl, Nat.le.refl, ?_⟩
  · simp only [Registry.update_trust_dimension, hcur, happly]
  · simp only [Registry.update_trust_dimension, hcur, happly]

theorem trust_history_written_first_witness :
    ((sampleTrustState.scores.find? (fun s => s.entity_type = "agent" &&
        s.entity_id = "e-1") = some sampleTrustScore) ∧
     Registry.applyDelta sampleTrustScore.dimension_scores samplePayload.dimension
       samplePayload.delta = some sampleUpdatedDims) ∧
    (∃ hist score,
      (Registry.update_trust_dimension sampleTrustState "agent" "e-1" samplePayload
        11 "h-1").2.2 =
        [.insert_history hist, .update_score score] ∧
      hist.composite_score = sampleTrustScore.composite_score ∧
      hist.dimension_scores = sampleTrustScore.dimension_scores ∧
      hist.recorded_at ≤ score.last_calculated_at ∧
      (Registry.update_trust_dimension sampleTrustState "agent" "e-1" samplePayload
        11 "h-1").2.1.history = sampleTrustState.history ++ [hist]) :=
  ⟨⟨rfl, rfl⟩,
   trust_history_written_first sampleTrustState "agent" "e-1" samplePayload 11 "h-1"
     sampleTrustScore sampleUpdatedDims rfl rfl⟩

def sampleTrustContextPE : PolicyEngine.TrustContext :=
  ⟨1/5, ⟨1/5, 1/5, 1/5, 1/5, 1/5⟩, some (3/10), some "block"⟩

def samplePolicyRequestV2 : PolicyEngine.PolicyRequestV2 :=
  { agent :=
      { valid := true, revoked := false, agent_id := "agent1",
        developer_id := "dev-uuid-1", enterprise_id := none, tenant_id := none,
        tenant_hierarchy_path := none, trust_score := some sampleTrustContextPE,
        attribution := none }
    request := ⟨"GET", "/api/foo", [], none⟩
    context := ⟨none, none, none⟩ }

def sampleOpaResult : Json :=
  .obj [("result", .obj
    [("allow", .bool false), ("trust_action", .str "block")])]

/-- C6: after a 2xx evaluator response, the synthesized `reason` is
"Policy allows request" when `allow`, "Trust score below minimum threshold"
when denied with `trust_action = "block"`, else "Policy denies request";
`trust_evaluation` is present iff the input carried a trust score, in which
case `passed = (composite_score ≥ applied_threshold)` with the threshold
defaulting to 0.3 when the evaluator omits it. -/
theorem policy_v2_reason_and_trust (request : PolicyEngine.PolicyRequestV2)
    (t : Nat) (opa_result : Json) :
    ((PolicyEngine.evaluate_v2_result request t opa_result).allowed = true →
      (PolicyEngine.evaluate_v2_result request t opa_result).reason =
        "Policy allows request") ∧
    ((PolicyEngine.evaluate_v2_result request t opa_result).allowed = false →
      PolicyEngine.trustActionOf opa_result = some "block" →
      (PolicyEngine.evaluate_v2_result request t opa_result).reason =
        "Trust score below minimum threshold") ∧
    ((PolicyEngine.evaluate_v2_result request t opa_result).allowed = false →
      ¬ PolicyEngine.trustActionOf opa_result = some "block" →
      (PolicyEngine.evaluate_v2_result request t opa_result).reason =
        "Policy denies request") ∧
    ((PolicyEngine.evaluate_v2_result request t opa_result).trust_evaluation.isSome =
      request.agent.trust_score.isSome) ∧
    (∀ ts, request.agent.trust_score = some ts →
      (PolicyEngine.evaluate_v2_result request t opa_result).trust_evaluation =
        some { trust_score_checked := true
               trust_score := some ts.composite_score
               threshold := PolicyEngine.appliedThresholdOf opa_result
               passed := decide (PolicyEngine.appliedThresholdOf opa_result ≤
                 ts.composite_score)
               action_taken := PolicyEngine.trustActionOf opa_result }) ∧
    (PolicyEngine.appliedThresholdOf opa_result =
      ((((PolicyEngine.resultDoc opa_result).get? "applied_threshold").bind
        Json.asNum)).getD (3/10 : Rat)) := by
  refine ⟨?_, ?_, ?_, ?_, ?_, rfl⟩
  · intro h
    simp only [PolicyEngine.evaluate_v2_result] at h ⊢
    rw [if_pos h]
  · intro h hb
    simp only [PolicyEngine.evaluate_v2_result] at h ⊢
    rw [if_neg (by simp [h]), if_pos hb]
  · intro h hb
    simp only [PolicyEngine.evaluate_v2_result] at h ⊢
    rw [if_neg (by simp [h]), if_neg hb]
  · cases h : request.agent.trust_score <;>
      simp [PolicyEngine.evaluate_v2_result, h]
  · intro ts hts
    simp only [PolicyEngine.evaluate_v2_result, hts, Option.map_some']

theorem policy_v2_reason_and_trust_witness :
    ((PolicyEngine.evaluate_v2_result samplePolicyRequestV2 5 sampleOpaResult).allowed = true →
      (PolicyEngine.evaluate_v2_result samplePolicyRequestV2 5 sampleOpaResult).reason =
        "Policy allows request") ∧
    ((PolicyEngine.evaluate_v2_result samplePolicyRequestV2 5 sampleOpaResult).allowed = false →
      PolicyEngine.trustActionOf sampleOpaResult = some "block" →
      (PolicyEngine.evaluate_v2_result samplePolicyRequestV2 5 sampleOpaResult).reason =
        "Trust score below minimum threshold") ∧
    ((PolicyEngine.evaluate_v2_result samplePolicyRequestV2 5 sampleOpaResult).allowed = false →
      ¬ PolicyEngine.trustActionOf sampleOpaResult = some "block" →
      (PolicyEngine.evaluate_v2_result samplePolicyRequestV2 5 sampleOpaResult).reason =
        "Policy denies request") ∧
    ((PolicyEngine.evaluate_v2_result samplePolicyRequestV2 5
        sampleOpaResult).trust_evaluation.isSome =
      samplePolicyRequestV2.agent.trust_score.isSome) ∧
    (∀ ts, samplePolicyRequestV2.agent.trust_score = some ts →
      (PolicyEngine.evaluate_v2_result samplePolicyRequestV2 5
          sampleOpaResult).trust_evaluation =
        some { trust_score_checked := true
               trust_score := some ts.composite_score
               threshold := PolicyEngine.appliedThresholdOf sampleOpaResult
               passed := decide (PolicyEngine.appliedThresholdOf sampleOpaResult ≤
                 ts.composite_score)
               action_taken := PolicyEngine.trustActionOf sampleOpaResult }) ∧
    (PolicyEngine.appliedThresholdOf sampleOpaResult =
      ((((PolicyEngine.resultDoc sampleOpaResult).get? "applied_threshold").bind
        Json.asNum)).getD (3/10 : Rat)) :=
  policy_v2_reason_and_trust samplePolicyRequestV2 5 sampleOpaResult

def sampleDevA : Registry.Developer :=
  ⟨"dev-uuid-A", "devA", some "ent-uuid-E1", "PK-dev"⟩

def sampleRegState : Registry.RegState :=
  ⟨[sampleDevA], [], [⟨"ent-uuid-E1", "E1"⟩]⟩

def sampleRegisterAgentRequest : Registry.RegisterAgentRequest :=
  ⟨"agent2", "devA", some "E2", "PK2", none, none⟩

/-- C7: given that the referenced developer exists, `register_agent` answers
400 `enterprise_mismatch` exactly when both the request and the developer
carry an enterprise and the two differ; when the request's enterprise equals
the developer's (and the agent id is fresh and the CA issues a chain), the
registration succeeds, returning the chain and appending the agent row. -/
theorem register_agent_enterprise_mismatch (st : Registry.RegState)
    (payload : Registry.RegisterAgentRequest) (fresh_id now_text : String)
    (cert : CallResult String) (developer : Registry.Developer)
    (hdev : st.developers.find? (fun d => d.developer_id = payload.developer_id) =
      some developer) :
    ((Registry.register_agent st payload fresh_id now_text cert).1 =
        .error (400, "enterprise_mismatch") ↔
      ∃ e de, payload.enterprise_id = some e ∧ developer.enterprise_id = some de ∧
        de ≠ e) ∧
    (∀ e, payload.enterprise_id = some e → developer.enterprise_id = some e →
      (st.agents.any (fun a => a.agent_id = payload.agent_id)) = false →
      ∀ chain, cert = .ok chain →
        (Registry.register_agent st payload fresh_id now_text cert).1 =
          .ok ⟨payload.agent_id, chain, now_text⟩ ∧
        (Registry.register_agent st payload fresh_id now_text cert).2.agents =
          st.agents ++ [⟨fresh_id, payload.agent_id, developer.id,
            (st.enterprises.find? (fun en => en.enterprise_id = e)).map (·.id),
            payload.public_key, chain⟩]) := by
  constructor
  · constructor
    · intro hres
      simp only [Registry.register_agent, hdev] at hres
      split at hres
      · rename_i hcond
        cases hp : payload.enterprise_id with
        | none => rw [hp] at hcond; exact absurd hcond (by simp)
        | some e =>
          cases hd : developer.enterprise_id with
          | none => rw [hp, hd] at hcond; exact absurd hcond (by simp)
          | some de =>
            rw [hp, hd] at hcond
            exact ⟨e, de, rfl, rfl, by simpa using hcond⟩
      · exfalso
        split at hres
        · simp at hres
        · cases cert with
          | ok chain => simp at hres
          | err m => simp at hres
    · rintro ⟨e, de, hp, hd, hne⟩
      simp [Registry.register_agent, hdev, hp, hd, hne]
  · intro e hp hd hany chain hchain
    subst hchain
    constructor
    · simp [Registry.register_agent, hdev, hp, hd, hany]
    · simp [Registry.register_agent, hdev, hp, hd, hany]

theorem register_agent_enterprise_mismatch_witness :
    (sampleRegState.developers.find?
      (fun d => d.developer_id = sampleRegisterAgentRequest.developer_id) =
        some sampleDevA) ∧
    (((Registry.register_agent sampleRegState sampleRegisterAgentRequest "ag-uuid-2"
        "2026-01-01T00:00:00+00:00" (.ok "CHAIN")).1 =
        .error (400, "enterprise_mismatch") ↔
      ∃ e de, sampleRegisterAgentRequest.enterprise_id = some e ∧
        sampleDevA.enterprise_id = some de ∧ de ≠ e) ∧
    (∀ e, sampleRegisterAgentRequest.enterprise_id = some e →
      sampleDevA.enterprise_id = some e →
      (sampleRegState.agents.any
        (fun a => a.agent_id = sampleRegisterAgentRequest.agent_id)) = false →
      ∀ chain, (CallResult.ok "CHAIN" : CallResult String) = .ok chain →
        (Registry.register_agent sampleRegState sampleRegisterAgentRequest "ag-uuid-2"
          "2026-01-01T00:00:00+00:00" (.ok "CHAIN")).1 =
          .ok ⟨sampleRegisterAgentRequest.agent_id, chain, "2026-01-01T00:00:00+00:00"⟩ ∧
        (Registry.register_agent sampleRegState sampleRegisterAgentRequest "ag-uuid-2"
          "2026-01-01T00:00:00+00:00" (.ok "CHAIN")).2.agents =
          sampleRegState.agents ++ [⟨"ag-uuid-2", sampleRegisterAgentRequest.agent_id,
            sampleDevA.id,
            (sampleRegState.enterprises.find? (fun en => en.enterprise_id = e)).map (·.id),
            sampleRegisterAgentRequest.public_key, chain⟩])) :=
  ⟨rfl,
   register_agent_enterprise_mismatch sampleRegState sampleRegisterAgentRequest
     "ag-uuid-2" "2026-01-01T00:00:00+00:00" (.ok "CHAIN") sampleDevA rfl⟩

def sampleReceiptEventRow : Queries.ReceiptEventRow :=
  ⟨"re-1", "r-1", "t-1", none, "s-1", none, 5, "agent_decision", "pathwell",
   "proxy-gateway", none, some "agent1", none, none, some "GET", some "/api/foo",
   none, none, some false, none, none, some true, none, .null, "h1", none, 5⟩

def sampleExternalEventRow : Queries.ExternalEventRow :=
  ⟨"xe-1", "ev-1", "t-1", none, "policy.updated", "jira", "jira-1", 3, none,
   some "alice-id", some "Alice", .null, none, 3⟩

/-- C9: `get_timeline` is a permutation of the converted receipt events and
external events, sorted ascending by timestamp; each receipt entry's success
is `identity_valid && policy_allowed` with the reason given by the first
failing check (policy before identity), and each external entry succeeds with
no reason and the summary
`<event_type> by <actor_display_name|actor_id|System> (<source_system>)`. -/
theorem timeline_merge_and_outcomes (rs : List Queries.ReceiptEventRow)
    (es : List Queries.ExternalEventRow) :
    (Queries.get_timeline rs es).Perm
        ((rs.map Queries.receiptTimelineEvent) ++
          (es.map Queries.externalTimelineEvent)) ∧
    (Queries.get_timeline rs es).Pairwise (fun a b => a.timestamp ≤ b.timestamp) ∧
    (∀ row ∈ rs, ∀ p v, row.policy_allowed = some p → row.identity_valid = some v →
      (Queries.receiptTimelineEvent row).outcome.success = (v && p) ∧
      (Queries.receiptTimelineEvent row).outcome.reason =
        (if !p then some "Policy denied"
         else if !v then some "Identity invalid" else none)) ∧
    (∀ ev ∈ es,
      (Queries.externalTimelineEvent ev).outcome.success = true ∧
      (Queries.externalTimelineEvent ev).outcome.reason = none ∧
      (Queries.externalTimelineEvent ev).summary =
        ev.event_type ++ " by " ++
          ((ev.actor_display_name.or ev.actor_id).getD "System") ++
          " (" ++ ev.source_system ++ ")") := by
  refine ⟨List.mergeSort_perm _ _, ?_, ?_, ?_⟩
  · have hs : ((((rs.map Queries.receiptTimelineEvent) ++
        (es.map Queries.externalTimelineEvent)).mergeSort
          (fun a b => decide (a.timestamp ≤ b.timestamp))).Pairwise
            (fun a b => (decide (a.timestamp ≤ b.timestamp)) = true)) :=
      List.sorted_mergeSort
        (fun a b c hab hbc => by
          simp only [decide_eq_true_eq] at hab hbc ⊢
          omega)
        (fun a b => by
          simp only [Bool.or_eq_true, decide_eq_true_eq]
          omega)
        _
    exact hs.imp (fun h => by simpa using h)
  · intro row _ p v hp hv
    constructor
    · simp [Queries.receiptTimelineEvent, hp, hv, Bool.and_comm]
    · simp [Queries.receiptTimelineEvent, hp, hv]
  · intro ev _
    exact ⟨rfl, rfl, rfl⟩

theorem timeline_merge_and_outcomes_witness :
    (sampleReceiptEventRow ∈ [sampleReceiptEventRow] ∧
      sampleReceiptEventRow.policy_allowed = some false ∧
      sampleReceiptEventRow.identity_valid = some true ∧
      sampleExternalEventRow ∈ [sampleExternalEventRow]) ∧
    (Queries.get_timeline [sampleReceiptEventRow] [sampleExternalEventRow]).Perm
        (([sampleReceiptEventRow].map Queries.receiptTimelineEvent) ++
          ([sampleExternalEventRow].map Queries.externalTimelineEvent)) ∧
    (Queries.receiptTimelineEvent sampleReceiptEventRow).outcome.success =
      (true && false) ∧
    (Queries.receiptTimelineEvent sampleReceiptEventRow).outcome.reason =
      some "Policy denied" ∧
    (Queries.externalTimelineEvent sampleExternalEventRow).outcome.success = true ∧
    (Queries.externalTimelineEvent sampleExternalEventRow).summary =
      sampleExternalEventRow.event_type ++ " by " ++
        ((sampleExternalEventRow.actor_display_name.or
            sampleExternalEventRow.actor_id).getD "System") ++
        " (" ++ sampleExternalEventRow.source_system ++ ")" := by
  have h := timeline_merge_and_outcomes [sampleReceiptEventRow] [sampleExternalEventRow]
  have hmemr : sampleReceiptEventRow ∈ [sampleReceiptEventRow] :=
    List.mem_singleton.mpr rfl
  have hmeme : sampleExternalEventRow ∈ [sampleExternalEventRow] :=
    List.mem_singleton.mpr rfl
  have hrow := h.2.2.1 sampleReceiptEventRow hmemr false true rfl rfl
  have hext := h.2.2.2 sampleExternalEventRow hmeme
  exact ⟨⟨hmemr, rfl, rfl, hmeme⟩, h.1, hrow.1, hrow.2.trans rfl, hext.1, hext.2.2⟩
